import Mathlib

/-!
IPAM plugin protocol adapter (package ipam, api.go).

A shallow embedding of the request handlers that `initMux` registers, of the
records they exchange with the driver, and of the JSON text they put on the
wire, followed by the properties of the adapter proved over it.

Conventions of the embedding:

* a Go `string` is a Lean `String` (so only valid UTF-8 text is covered);
* a Go pointer result that may be `nil` is an `Option`;
* a Go `error` is the record `GoError` holding the text `err.Error()` returns,
  and a possibly-nil `error` is an `Option GoError`;
* a Go `map[string]string` is an `Option` of an association list, `none`
  being the nil map;
* the driver is an arbitrary state machine: every operation takes the driver
  state and returns its results with the next state;
* the exchange keeps a log of the driver operations invoked (ghost state used
  only to state which operations a handler calls);
* the decoder of `encoding/json` is a parameter of the handlers (`Decoder`);
  `jsonDecoder` is an executable one for running concrete request bodies;
* the helpers of package sdk that api.go calls (`EncodeResponse`,
  `DecodeRequest`, `NewHandler`) are not among the sources and are modelled
  from the specification; each says so in its comment.
-/

namespace Ipam

/-! ## Constants of api.go -/

def manifest : String := "\x7b\"Implements\": [\"IpamDriver\"]\x7d"
def capabilitiesPath : String := "/IpamDriver.GetCapabilities"
def requestPoolPath : String := "/IpamDriver.RequestPool"
def releasePoolPath : String := "/IpamDriver.ReleasePool"
def requestAddressPath : String := "/IpamDriver.RequestAddress"
def releaseAddressPath : String := "/IpamDriver.ReleaseAddress"
def getDefaultAddressSpacesPath : String := "/IpamDriver.GetDefaultAddressSpaces"

/-! ## Records of api.go -/

/-- Go `map[string]string`: `none` is the nil map, `some l` a map with the entries `l`. -/
abbrev GoMap := Option (List (String × String))

/-- Go `make(map[string]string)`: a non-nil map without entries. -/
def makeMap : GoMap := some []

/-- A non-nil Go `error`; `Error` is the text its `Error()` method returns. -/
structure GoError where
  Error : String
deriving DecidableEq, Repr

/-- Go `errors.New`. -/
def errorsNew (text : String) : GoError := ⟨text⟩

structure CreateIpamPoolRequest where
  AddressSpace : String := ""
  Pool : String := ""
  SubPool : String := ""
  Options : GoMap := none
  V6 : Bool := false
deriving DecidableEq, Repr

structure CreateIpamPoolResponse where
  PoolID : String := ""
  Pool : String := ""
  Data : GoMap := none
deriving DecidableEq, Repr

structure ReleaseIpamPoolRequest where
  PoolID : String := ""
deriving DecidableEq, Repr

structure CreateIpamAddressRequest where
  PoolID : String := ""
  Address : String := ""
  Options : GoMap := none
deriving DecidableEq, Repr

structure CreateIpamAddressResponse where
  Address : String := ""
  Data : GoMap := none
deriving DecidableEq, Repr

structure ReleaseIpamAddressRequest where
  PoolID : String := ""
  Address : String := ""
deriving DecidableEq, Repr

structure GetAddressSpacesResponse where
  LocalDefaultAddressSpace : String := ""
  GlobalDefaultAddressSpace : String := ""
deriving DecidableEq, Repr

structure ErrorResponse where
  Err : String := ""
deriving DecidableEq, Repr

structure CapabilitiesResponse where
  RequiresMacAddress : Bool := false
deriving DecidableEq, Repr

/-- NewErrorResponse creates an ErrorResponse with the provided message. -/
def NewErrorResponse (msg : String) : ErrorResponse := { Err := msg }

/-! ## JSON text written by `json.NewEncoder(w).Encode` (Go standard library)

The encoder of `encoding/json` for the values the handlers hand to
`sdk.EncodeResponse`: compact objects, fields in declaration order under
their Go names, strings escaped as the encoder does with HTML escaping on
(its default), maps with their keys sorted, nil pointers and nil maps as
`null`. Control characters other than newline, carriage return and tab are
written in the six-character form, as the encoder did before it gained short
forms for backspace and form feed. -/

/-- The table `hex` of encoding/json: the lower-case hexadecimal digit of `n`. -/
def hexDigit (n : Nat) : Char := "0123456789abcdef".toList.getD n '0'

/-- Whether the encoder writes the character as it is inside a JSON string:
everything but the quote, the backslash, the control characters below U+0020,
the HTML characters (less-than, greater-than, ampersand) and U+2028, U+2029. -/
def jsonSafe (c : Char) : Bool :=
  !(c.toNat < 32 || c.toNat = 34 || c.toNat = 92 || c.toNat = 60 || c.toNat = 62
    || c.toNat = 38 || c.toNat = 8232 || c.toNat = 8233)

/-- The text the encoder writes for one character of a string. -/
def escapeChar (c : Char) : List Char :=
  if jsonSafe c then [c]
  else if c.toNat = 34 then [Char.ofNat 92, Char.ofNat 34]
  else if c.toNat = 92 then [Char.ofNat 92, Char.ofNat 92]
  else if c.toNat = 10 then [Char.ofNat 92, Char.ofNat 110]
  else if c.toNat = 13 then [Char.ofNat 92, Char.ofNat 114]
  else if c.toNat = 9 then [Char.ofNat 92, Char.ofNat 116]
  else if c.toNat = 8232 then "\\u2028".toList
  else if c.toNat = 8233 then "\\u2029".toList
  else "\\u00".toList ++ [hexDigit (c.toNat / 16), hexDigit (c.toNat % 16)]

/-- A Go string as a JSON string literal. -/
def encodeString (s : String) : String :=
  "\"" ++ String.mk (s.toList.flatMap escapeChar) ++ "\""

/-- Lexicographic order on texts by code point, which is the byte order of
their UTF-8 form (the order Go sorts map keys in). -/
def charsLess : List Char → List Char → Bool
  | _, [] => false
  | [], _ :: _ => true
  | a :: s, b :: t => a.toNat < b.toNat || (a.toNat = b.toNat && charsLess s t)

/-- Insertion of a map entry into a list kept in increasing key order. -/
def insertEntry (e : String × String) : List (String × String) → List (String × String)
  | [] => [e]
  | f :: l => if charsLess e.1.toList f.1.toList then e :: f :: l else f :: insertEntry e l

/-- The entries of a map in the order the encoder writes them: sorted by key. -/
def sortEntries (l : List (String × String)) : List (String × String) :=
  l.foldr insertEntry []

def encodeEntry (e : String × String) : String :=
  encodeString e.1 ++ ":" ++ encodeString e.2

/-- A `map[string]string` as JSON: `null` for the nil map, otherwise an object. -/
def encodeMap : GoMap → String
  | none => "null"
  | some l => "\x7b" ++ ",".intercalate ((sortEntries l).map encodeEntry) ++ "\x7d"

def encodeBool (b : Bool) : String := if b then "true" else "false"

def encodeErrorResponse (e : ErrorResponse) : String :=
  "\x7b\"Err\":" ++ encodeString e.Err ++ "\x7d"

def encodeCapabilitiesResponse (r : CapabilitiesResponse) : String :=
  "\x7b\"RequiresMacAddress\":" ++ encodeBool r.RequiresMacAddress ++ "\x7d"

def encodeCreateIpamPoolResponse (r : CreateIpamPoolResponse) : String :=
  "\x7b\"PoolID\":" ++ encodeString r.PoolID ++ ",\"Pool\":" ++ encodeString r.Pool
    ++ ",\"Data\":" ++ encodeMap r.Data ++ "\x7d"

def encodeCreateIpamAddressResponse (r : CreateIpamAddressResponse) : String :=
  "\x7b\"Address\":" ++ encodeString r.Address ++ ",\"Data\":" ++ encodeMap r.Data ++ "\x7d"

def encodeGetAddressSpacesResponse (r : GetAddressSpacesResponse) : String :=
  "\x7b\"LocalDefaultAddressSpace\":" ++ encodeString r.LocalDefaultAddressSpace
    ++ ",\"GlobalDefaultAddressSpace\":" ++ encodeString r.GlobalDefaultAddressSpace ++ "\x7d"

/-- A pointer that may be nil: `null`, or the encoding of what it points to. -/
def encodePtr {α : Type} (enc : α → String) : Option α → String
  | none => "null"
  | some a => enc a

/-- The values the handlers pass to `sdk.EncodeResponse` as `interface{}`,
by dynamic type. -/
inductive Payload where
  | errorResponse (e : ErrorResponse)
  | capabilities (r : Option CapabilitiesResponse)
  | pool (r : Option CreateIpamPoolResponse)
  | address (r : Option CreateIpamAddressResponse)
  | addressSpaces (r : Option GetAddressSpacesResponse)
  | stringMap (m : GoMap)
deriving DecidableEq, Repr

/-- The JSON text of a payload (`json.Marshal`). -/
def Marshal : Payload → String
  | .errorResponse e => encodeErrorResponse e
  | .capabilities r => encodePtr encodeCapabilitiesResponse r
  | .pool r => encodePtr encodeCreateIpamPoolResponse r
  | .address r => encodePtr encodeCreateIpamAddressResponse r
  | .addressSpaces r => encodePtr encodeGetAddressSpacesResponse r
  | .stringMap m => encodeMap m

/-! ## The HTTP exchange (net/http, Go standard library) -/

/-- What a handler reads of an `http.Request`: the path the multiplexer
routes on and the body as received. -/
structure Request where
  path : String
  body : String
deriving DecidableEq, Repr

def StatusOK : Nat := 200
def StatusNotFound : Nat := 404

/-- An `http.ResponseWriter` as observed from outside: the status code once
the header has been sent, and the chunks handed to `Write`, in order. -/
structure ResponseWriter where
  status : Option Nat := none
  writes : List String := []
deriving DecidableEq, Repr

/-- WriteHeader sends the header with the given status; only the first call counts. -/
def ResponseWriter.WriteHeader (w : ResponseWriter) (code : Nat) : ResponseWriter :=
  match w.status with
  | none => { w with status := some code }
  | some _ => w

/-- Write sends the header with status 200 when it was not sent before, then the chunk. -/
def ResponseWriter.Write (w : ResponseWriter) (b : String) : ResponseWriter :=
  let w1 := w.WriteHeader StatusOK
  { w1 with writes := w1.writes ++ [b] }

/-- The response body the client reads: the chunks written, concatenated. -/
def ResponseWriter.body (w : ResponseWriter) : String := String.join w.writes

/-! ## The driver -/

/-- Driver represent the interface a driver must fulfill. Each operation is a
transition of the driver state `σ` returning the Go results: the pointer
result (possibly nil) and the error (possibly nil). -/
structure Driver (σ : Type) where
  Capabilities : σ → (Option CapabilitiesResponse × Option GoError) × σ
  RequestPool : CreateIpamPoolRequest → σ → (Option CreateIpamPoolResponse × Option GoError) × σ
  ReleasePool : ReleaseIpamPoolRequest → σ → Option GoError × σ
  RequestAddress : CreateIpamAddressRequest → σ → (Option CreateIpamAddressResponse × Option GoError) × σ
  ReleaseAddress : ReleaseIpamAddressRequest → σ → Option GoError × σ
  GetDefaultAddressSpaces : σ → (Option GetAddressSpacesResponse × Option GoError) × σ

/-- One invocation of a driver operation, with the argument it received. -/
inductive DriverCall where
  | Capabilities
  | RequestPool (req : CreateIpamPoolRequest)
  | ReleasePool (req : ReleaseIpamPoolRequest)
  | RequestAddress (req : CreateIpamAddressRequest)
  | ReleaseAddress (req : ReleaseIpamAddressRequest)
  | GetDefaultAddressSpaces
deriving DecidableEq, Repr

/-- The state a handler runs in: the response writer `w`, the state of the
driver, and the log of the driver operations invoked so far. -/
structure Exchange (σ : Type) where
  w : ResponseWriter := {}
  driver : σ
  calls : List DriverCall := []

/-- A function registered for a path: `func(w http.ResponseWriter, r *http.Request)`. -/
abbrev HandlerFunc (σ : Type) := Request → Exchange σ → Exchange σ

/-- The decoder of `encoding/json` (Go standard library) at the four request
records: `json.NewDecoder(r.Body).Decode(req)` on a fresh record, giving the
filled record or the decoder's error text. The properties below hold for
every such decoder. -/
structure Decoder where
  poolRequest : String → Except String CreateIpamPoolRequest
  releasePoolRequest : String → Except String ReleaseIpamPoolRequest
  addressRequest : String → Except String CreateIpamAddressRequest
  releaseAddressRequest : String → Except String ReleaseIpamAddressRequest

/-! ## A JSON decoder for the request records

An executable model of `json.NewDecoder(r.Body).Decode(req)` on the four
request records, used to run the handlers on concrete request bodies: the
first JSON value of the body is read (a syntax error or an empty body fails),
an object fills the fields whose names match its keys (letter case folded,
unknown keys skipped, `null` leaving a field as it is, a value of another
kind than the field failing), a top-level `null` leaves the record as it is. -/

/-- A parsed JSON value; the digits of a number are not kept, since no field
of the request records is numeric. -/
inductive JValue where
  | null
  | bool (b : Bool)
  | number
  | string (s : String)
  | array (l : List JValue)
  | object (l : List (String × JValue))

def isSpace (c : Char) : Bool :=
  c.toNat = 32 || c.toNat = 9 || c.toNat = 10 || c.toNat = 13

def skipSpace : List Char → List Char
  | [] => []
  | c :: cs => if isSpace c then skipSpace cs else c :: cs

def isDigit (c : Char) : Bool := 48 ≤ c.toNat && c.toNat ≤ 57

def skipDigits : List Char → List Char
  | [] => []
  | c :: cs => if isDigit c then skipDigits cs else c :: cs

def hexVal (c : Char) : Option Nat :=
  let n := c.toNat
  if 48 ≤ n ∧ n ≤ 57 then some (n - 48)
  else if 97 ≤ n ∧ n ≤ 102 then some (n - 87)
  else if 65 ≤ n ∧ n ≤ 70 then some (n - 55)
  else none

/-- Four hexadecimal digits, as after a backslash and `u`. -/
def parseHex4 : List Char → Option (Nat × List Char)
  | a :: b :: c :: d :: rest =>
    match hexVal a, hexVal b, hexVal c, hexVal d with
    | some a, some b, some c, some d => some (((a * 16 + b) * 16 + c) * 16 + d, rest)
    | _, _, _, _ => none
  | _ => none

/-- The character a one-letter escape stands for. -/
def unescape (c : Char) : Option Char :=
  if c.toNat = 34 || c.toNat = 92 || c.toNat = 47 then some c
  else if c.toNat = 98 then some (Char.ofNat 8)
  else if c.toNat = 102 then some (Char.ofNat 12)
  else if c.toNat = 110 then some (Char.ofNat 10)
  else if c.toNat = 114 then some (Char.ofNat 13)
  else if c.toNat = 116 then some (Char.ofNat 9)
  else none

/-- The low half of a surrogate pair written as a second escape, if one follows. -/
def lowSurrogate : List Char → Option (Nat × List Char)
  | b :: u :: rest =>
    if b.toNat = 92 ∧ u.toNat = 117 then
      match parseHex4 rest with
      | some (m, rest2) => if 56320 ≤ m ∧ m < 57344 then some (m, rest2) else none
      | none => none
    else none
  | _ => none

/-- The rest of a string literal after its opening quote: the text it denotes
and what follows the closing quote. -/
def parseStringBody : Nat → List Char → List Char → Option (String × List Char)
  | 0, _, _ => none
  | _ + 1, [], _ => none
  | fuel + 1, c :: cs, acc =>
    if c.toNat = 34 then some (String.mk acc.reverse, cs)
    else if c.toNat < 32 then none
    else if c.toNat = 92 then
      match cs with
      | [] => none
      | e :: rest =>
        if e.toNat = 117 then
          match parseHex4 rest with
          | none => none
          | some (n, rest2) =>
            if 55296 ≤ n ∧ n < 56320 then
              match lowSurrogate rest2 with
              | some (m, rest3) =>
                parseStringBody fuel rest3
                  (Char.ofNat (65536 + (n - 55296) * 1024 + (m - 56320)) :: acc)
              | none => parseStringBody fuel rest2 (Char.ofNat 65533 :: acc)
            else if 56320 ≤ n ∧ n < 57344 then parseStringBody fuel rest2 (Char.ofNat 65533 :: acc)
            else parseStringBody fuel rest2 (Char.ofNat n :: acc)
        else
          match unescape e with
          | some ch => parseStringBody fuel rest (ch :: acc)
          | none => none
    else parseStringBody fuel cs (c :: acc)

/-- A string literal after its opening quote. -/
def parseString (cs : List Char) : Option (String × List Char) :=
  parseStringBody (cs.length + 1) cs []

/-- The exponent of a number, if any; what follows the number. -/
def parseExponent : List Char → Option (List Char)
  | [] => some []
  | e :: rest =>
    if e.toNat = 101 || e.toNat = 69 then
      let rest := match rest with
        | sg :: r => if sg.toNat = 43 || sg.toNat = 45 then r else sg :: r
        | [] => []
      match rest with
      | d :: r => if isDigit d then some (skipDigits r) else none
      | [] => none
    else some (e :: rest)

/-- The fraction and exponent of a number, if any. -/
def parseFraction : List Char → Option (List Char)
  | [] => some []
  | p :: rest =>
    if p.toNat = 46 then
      match rest with
      | d :: r => if isDigit d then parseExponent (skipDigits r) else none
      | [] => none
    else parseExponent (p :: rest)

/-- A number; what follows it. -/
def parseNumber (cs : List Char) : Option (List Char) :=
  let cs := match cs with
    | sg :: r => if sg.toNat = 45 then r else sg :: r
    | [] => []
  match cs with
  | d :: r =>
    if d.toNat = 48 then parseFraction r
    else if isDigit d then parseFraction (skipDigits r)
    else none
  | [] => none

/-- The text `lit` at the head of the input; what follows it. -/
def parseLiteral (lit : String) (cs : List Char) : Option (List Char) :=
  if lit.toList.isPrefixOf cs then some (cs.drop lit.length) else none

mutual
/-- One JSON value, after optional white space; the value and what follows it. -/
def parseValue : Nat → List Char → Option (JValue × List Char)
  | 0, _ => none
  | fuel + 1, cs =>
    match skipSpace cs with
    | [] => none
    | c :: rest =>
      if c.toNat = 123 then
        match skipSpace rest with
        | [] => none
        | d :: rest2 =>
          if d.toNat = 125 then some (JValue.object [], rest2)
          else parseMembers fuel (d :: rest2) []
      else if c.toNat = 91 then
        match skipSpace rest with
        | [] => none
        | d :: rest2 =>
          if d.toNat = 93 then some (JValue.array [], rest2)
          else parseElements fuel (d :: rest2) []
      else if c.toNat = 34 then
        match parseString rest with
        | some (s, rest2) => some (JValue.string s, rest2)
        | none => none
      else if c.toNat = 116 then (parseLiteral "true" (c :: rest)).map (fun r => (JValue.bool true, r))
      else if c.toNat = 102 then (parseLiteral "false" (c :: rest)).map (fun r => (JValue.bool false, r))
      else if c.toNat = 110 then (parseLiteral "null" (c :: rest)).map (fun r => (JValue.null, r))
      else (parseNumber (c :: rest)).map (fun r => (JValue.number, r))
/-- The members of an object after its opening brace, the first one non-empty. -/
def parseMembers : Nat → List Char → List (String × JValue) → Option (JValue × List Char)
  | 0, _, _ => none
  | fuel + 1, cs, acc =>
    match skipSpace cs with
    | [] => none
    | q :: rest =>
      if q.toNat = 34 then
        match parseString rest with
        | none => none
        | some (k, rest2) =>
          match skipSpace rest2 with
          | [] => none
          | colon :: rest3 =>
            if colon.toNat = 58 then
              match parseValue fuel rest3 with
              | none => none
              | some (v, rest4) =>
                match skipSpace rest4 with
                | [] => none
                | sep :: rest5 =>
                  if sep.toNat = 44 then parseMembers fuel rest5 (acc ++ [(k, v)])
                  else if sep.toNat = 125 then some (JValue.object (acc ++ [(k, v)]), rest5)
                  else none
            else none
      else none
/-- The elements of an array after its opening bracket, the first one non-empty. -/
def parseElements : Nat → List Char → List JValue → Option (JValue × List Char)
  | 0, _, _ => none
  | fuel + 1, cs, acc =>
    match parseValue fuel cs with
    | none => none
    | some (v, rest) =>
      match skipSpace rest with
      | [] => none
      | sep :: rest2 =>
        if sep.toNat = 44 then parseElements fuel rest2 (acc ++ [v])
        else if sep.toNat = 93 then some (JValue.array (acc ++ [v]), rest2)
        else none
end

/-- The first JSON value of a request body. Every call of the parser consumes
a character, so the length of the body bounds the calls needed. -/
def readValue (body : String) : Option JValue :=
  (parseValue (body.length + 1) body.toList).map Prod.fst

/-- Case folding of the decoder for field names: ASCII letters to lower case,
and the two non-ASCII characters that fold to ASCII letters (the long s and
the Kelvin sign). -/
def foldRune (c : Char) : Char :=
  if 65 ≤ c.toNat ∧ c.toNat ≤ 90 then Char.ofNat (c.toNat + 32)
  else if c.toNat = 383 then Char.ofNat 115
  else if c.toNat = 8490 then Char.ofNat 107
  else c

/-- Whether a key of the JSON object names the field `name`. -/
def equalFold (name key : String) : Bool :=
  name.toList.map foldRune == key.toList.map foldRune

/-- A JSON value stored into a field of type string. -/
def storeString (old : String) : JValue → Except String String
  | .string s => .ok s
  | .null => .ok old
  | _ => .error "json: cannot unmarshal value into Go value of type string"

/-- A JSON value stored into a field of type bool. -/
def storeBool (old : Bool) : JValue → Except String Bool
  | .bool b => .ok b
  | .null => .ok old
  | _ => .error "json: cannot unmarshal value into Go value of type bool"

/-- The assignment `m[k] = v` on the entries of a map. -/
def mapSet (k v : String) (l : List (String × String)) : List (String × String) :=
  l.filter (fun e => e.1 != k) ++ [(k, v)]

/-- A JSON value stored into a field of type map[string]string: `null` makes
the map nil, an object adds its members to the map (made when nil). -/
def storeMap (old : GoMap) : JValue → Except String GoMap
  | .null => .ok none
  | .object members =>
    (members.foldlM (fun l kv => (storeString "" kv.2).map (fun v => mapSet kv.1 v l))
      (old.getD [])).map some
  | _ => .error "json: cannot unmarshal value into Go value of type map[string]string"

def storeCreateIpamPoolRequest (req : CreateIpamPoolRequest) (kv : String × JValue) :
    Except String CreateIpamPoolRequest :=
  if equalFold "AddressSpace" kv.1 then
    (storeString req.AddressSpace kv.2).map (fun v => { req with AddressSpace := v })
  else if equalFold "Pool" kv.1 then
    (storeString req.Pool kv.2).map (fun v => { req with Pool := v })
  else if equalFold "SubPool" kv.1 then
    (storeString req.SubPool kv.2).map (fun v => { req with SubPool := v })
  else if equalFold "Options" kv.1 then
    (storeMap req.Options kv.2).map (fun v => { req with Options := v })
  else if equalFold "V6" kv.1 then
    (storeBool req.V6 kv.2).map (fun v => { req with V6 := v })
  else .ok req

def storeReleaseIpamPoolRequest (req : ReleaseIpamPoolRequest) (kv : String × JValue) :
    Except String ReleaseIpamPoolRequest :=
  if equalFold "PoolID" kv.1 then
    (storeString req.PoolID kv.2).map (fun v => { req with PoolID := v })
  else .ok req

def storeCreateIpamAddressRequest (req : CreateIpamAddressRequest) (kv : String × JValue) :
    Except String CreateIpamAddressRequest :=
  if equalFold "PoolID" kv.1 then
    (storeString req.PoolID kv.2).map (fun v => { req with PoolID := v })
  else if equalFold "Address" kv.1 then
    (storeString req.Address kv.2).map (fun v => { req with Address := v })
  else if equalFold "Options" kv.1 then
    (storeMap req.Options kv.2).map (fun v => { req with Options := v })
  else .ok req

def storeReleaseIpamAddressRequest (req : ReleaseIpamAddressRequest) (kv : String × JValue) :
    Except String ReleaseIpamAddressRequest :=
  if equalFold "PoolID" kv.1 then
    (storeString req.PoolID kv.2).map (fun v => { req with PoolID := v })
  else if equalFold "Address" kv.1 then
    (storeString req.Address kv.2).map (fun v => { req with Address := v })
  else .ok req

/-- Decoding of a body into a record with the zero value `zero`, given how one
member of an object is stored into the record. -/
def decodeRecord {α : Type} (zero : α) (store : α → String × JValue → Except String α)
    (body : String) : Except String α :=
  match readValue body with
  | none => .error "json: no well-formed value in the body"
  | some .null => .ok zero
  | some (.object members) => members.foldlM store zero
  | some _ => .error "json: cannot unmarshal value into Go value of a struct type"

/-- The decoder of the four request records. -/
def jsonDecoder : Decoder where
  poolRequest := decodeRecord {} storeCreateIpamPoolRequest
  releasePoolRequest := decodeRecord {} storeReleaseIpamPoolRequest
  addressRequest := decodeRecord {} storeCreateIpamAddressRequest
  releaseAddressRequest := decodeRecord {} storeReleaseIpamAddressRequest

/-! ## Package sdk -/

/-- Modelled from the spec: `sdk.EncodeResponse` is not among the sources
(only its calls in api.go are). The spec has every response, success or error
envelope, written as compact JSON with HTTP 200, and the test in api_test.go
reads the JSON text followed by a newline; the spec gives the third argument
no effect. One call is one `Write` of the encoded value and a newline. -/
def sdk.EncodeResponse (w : ResponseWriter) (res : Payload) (_err : String) : ResponseWriter :=
  w.Write (Marshal res ++ "\n")

/-- Modelled from the spec: `sdk.DecodeRequest` is not among the sources (only
its calls in api.go are). The spec has a decode failure end the exchange
without a response body: the writer comes back as it was, with the decoded
record or the error. -/
def sdk.DecodeRequest {α : Type} (decode : String → Except String α) (w : ResponseWriter)
    (r : Request) : ResponseWriter × Except GoError α :=
  match decode r.body with
  | .ok req => (w, .ok req)
  | .error e => (w, .error ⟨e⟩)

/-- The multiplexer `http.ServeMux`: the registered patterns with their functions. -/
structure ServeMux (σ : Type) where
  m : List (String × HandlerFunc σ) := []

/-- The patterns registered, in registration order. -/
def ServeMux.patterns {σ : Type} (mux : ServeMux σ) : List String := mux.m.map Prod.fst

/-- The registration `mux.HandleFunc(pattern, handler)`, which panics (here: fails)
on an empty pattern and on a pattern registered before. -/
def ServeMux.HandleFunc {σ : Type} (mux : ServeMux σ) (pattern : String)
    (handler : HandlerFunc σ) : Except String (ServeMux σ) :=
  if pattern = "" then .error "http: invalid pattern"
  else if pattern ∈ mux.patterns then .error ("http: multiple registrations for " ++ pattern)
  else .ok { m := mux.m ++ [(pattern, handler)] }

/-- The function registered for a path, for patterns without a trailing slash
(all patterns here): the entry whose pattern is the path. -/
def ServeMux.handler {σ : Type} (mux : ServeMux σ) (path : String) : Option (HandlerFunc σ) :=
  (mux.m.find? (fun e => e.1 == path)).map Prod.snd

/-- The reply `http.NotFound` of the multiplexer for a path without a handler. -/
def NotFound {σ : Type} (x : Exchange σ) : Exchange σ :=
  { x with w := (x.w.WriteHeader StatusNotFound).Write "404 page not found\n" }

def ServeMux.ServeHTTP {σ : Type} (mux : ServeMux σ) (r : Request) (x : Exchange σ) : Exchange σ :=
  match mux.handler r.path with
  | some f => f r x
  | none => NotFound x

/-- The path of the discovery route, as requested by TestActivate. -/
def activatePath : String := "/Plugin.Activate"

/-- Modelled from the spec: the discovery function `sdk.NewHandler` registers
is not among the sources. The spec has the discovery route return the static
manifest whatever the driver, and TestActivate reads the manifest followed by
a newline. -/
def sdk.activate {σ : Type} (manifest : String) : HandlerFunc σ :=
  fun _ x => { x with w := x.w.Write (manifest ++ "\n") }

/-- The handler of package sdk: `sdk.Handler`, holding the multiplexer. -/
structure sdk.Handler (σ : Type) where
  mux : ServeMux σ

/-- Modelled from the spec: `sdk.NewHandler` is not among the sources (only
its call in NewHandler is). It makes the multiplexer and registers the
discovery route serving the manifest. -/
def sdk.NewHandler {σ : Type} (manifest : String) : Except String (sdk.Handler σ) :=
  match ({} : ServeMux σ).HandleFunc activatePath (sdk.activate manifest) with
  | .ok mux => .ok { mux := mux }
  | .error e => .error e

/-! ## Handler, NewHandler and initMux of api.go -/

/-- Handler forwards requests and responses between the docker daemon and the plugin. -/
structure Handler (σ : Type) where
  driver : Driver σ
  sdkHandler : sdk.Handler σ

/-- The promoted method `h.HandleFunc` of the embedded `sdk.Handler`. -/
def Handler.HandleFunc {σ : Type} (h : Handler σ) (path : String) (fn : HandlerFunc σ) :
    Except String (Handler σ) :=
  match h.sdkHandler.mux.HandleFunc path fn with
  | .ok mux => .ok { h with sdkHandler := { mux := mux } }
  | .error e => .error e

/-- The promoted method `h.ServeHTTP`: one request served through the multiplexer. -/
def Handler.ServeHTTP {σ : Type} (h : Handler σ) (r : Request) (x : Exchange σ) : Exchange σ :=
  h.sdkHandler.mux.ServeHTTP r x

/-- The optional error write shared by the six functions:
`if err != nil { msg := err.Error(); sdk.EncodeResponse(w, NewErrorResponse(msg), msg) }`. -/
def writeError (w : ResponseWriter) (err : GoError) : ResponseWriter :=
  let msg := err.Error
  sdk.EncodeResponse w (.errorResponse (NewErrorResponse msg)) msg

/-- The function registered at capabilitiesPath. -/
def capabilitiesHandler {σ : Type} (d : Driver σ) : HandlerFunc σ := fun _ x =>
  let out := d.Capabilities x.driver
  let res := out.1.1
  let err := out.1.2
  let x := { x with driver := out.2, calls := x.calls ++ [DriverCall.Capabilities] }
  let x := match err with
    | some e => { x with w := writeError x.w e }
    | none => x
  { x with w := sdk.EncodeResponse x.w (.capabilities res) "" }

/-- The function registered at requestPoolPath. -/
def requestPoolHandler {σ : Type} (dec : Decoder) (d : Driver σ) : HandlerFunc σ := fun r x =>
  match sdk.DecodeRequest dec.poolRequest x.w r with
  | (w, .error _) => { x with w := w }
  | (w, .ok req) =>
    let out := d.RequestPool req x.driver
    let res := out.1.1
    let err := out.1.2
    let x := { x with w := w, driver := out.2, calls := x.calls ++ [DriverCall.RequestPool req] }
    let x := match err with
      | some e => { x with w := writeError x.w e }
      | none => x
    { x with w := sdk.EncodeResponse x.w (.pool res) "" }

/-- The function registered at releasePoolPath. -/
def releasePoolHandler {σ : Type} (dec : Decoder) (d : Driver σ) : HandlerFunc σ := fun r x =>
  match sdk.DecodeRequest dec.releasePoolRequest x.w r with
  | (w, .error _) => { x with w := w }
  | (w, .ok req) =>
    let out := d.ReleasePool req x.driver
    let err := out.1
    let x := { x with w := w, driver := out.2, calls := x.calls ++ [DriverCall.ReleasePool req] }
    match err with
    | some e => { x with w := writeError x.w e }
    | none => { x with w := sdk.EncodeResponse x.w (.stringMap makeMap) "" }

/-- The function registered at requestAddressPath. -/
def requestAddressHandler {σ : Type} (dec : Decoder) (d : Driver σ) : HandlerFunc σ := fun r x =>
  match sdk.DecodeRequest dec.addressRequest x.w r with
  | (w, .error _) => { x with w := w }
  | (w, .ok req) =>
    let out := d.RequestAddress req x.driver
    let res := out.1.1
    let err := out.1.2
    let x := { x with w := w, driver := out.2, calls := x.calls ++ [DriverCall.RequestAddress req] }
    let x := match err with
      | some e => { x with w := writeError x.w e }
      | none => x
    { x with w := sdk.EncodeResponse x.w (.address res) "" }

/-- The function registered at releaseAddressPath. -/
def releaseAddressHandler {σ : Type} (dec : Decoder) (d : Driver σ) : HandlerFunc σ := fun r x =>
  match sdk.DecodeRequest dec.releaseAddressRequest x.w r with
  | (w, .error _) => { x with w := w }
  | (w, .ok req) =>
    let out := d.ReleaseAddress req x.driver
    let err := out.1
    let x := { x with w := w, driver := out.2, calls := x.calls ++ [DriverCall.ReleaseAddress req] }
    match err with
    | some e => { x with w := writeError x.w e }
    | none => { x with w := sdk.EncodeResponse x.w (.stringMap makeMap) "" }

/-- The function registered at getDefaultAddressSpacesPath. -/
def getDefaultAddressSpacesHandler {σ : Type} (d : Driver σ) : HandlerFunc σ := fun _ x =>
  let out := d.GetDefaultAddressSpaces x.driver
  let res := out.1.1
  let err := out.1.2
  let x := { x with driver := out.2, calls := x.calls ++ [DriverCall.GetDefaultAddressSpaces] }
  let x := match err with
    | some e => { x with w := writeError x.w e }
    | none => x
  { x with w := sdk.EncodeResponse x.w (.addressSpaces res) "" }

/-- The six registrations of initMux, in the order of the source. -/
def Handler.initMux {σ : Type} (dec : Decoder) (h : Handler σ) : Except String (Handler σ) := do
  let h ← h.HandleFunc capabilitiesPath (capabilitiesHandler h.driver)
  let h ← h.HandleFunc requestPoolPath (requestPoolHandler dec h.driver)
  let h ← h.HandleFunc releasePoolPath (releasePoolHandler dec h.driver)
  let h ← h.HandleFunc requestAddressPath (requestAddressHandler dec h.driver)
  let h ← h.HandleFunc releaseAddressPath (releaseAddressHandler dec h.driver)
  h.HandleFunc getDefaultAddressSpacesPath (getDefaultAddressSpacesHandler h.driver)

/-- NewHandler initializes the request handler with a driver implementation. -/
def NewHandler {σ : Type} (dec : Decoder) (driver : Driver σ) : Except String (Handler σ) := do
  let s ← sdk.NewHandler manifest
  let h : Handler σ := { driver := driver, sdkHandler := s }
  h.initMux dec

/-- One exchange as in api_test.go: the handler is made by `NewHandler(driver)`,
then serves the request `r` with a fresh response writer, the driver being in
state `s`. The result is the exchange as the handler leaves it. -/
def serve {σ : Type} (dec : Decoder) (driver : Driver σ) (s : σ) (r : Request) :
    Except String (Exchange σ) := do
  let h ← NewHandler dec driver
  pure (h.ServeHTTP r { driver := s })

/-! ## Drivers -/

/-- A driver whose operations return fixed non-nil results with content (text
that needs escaping, a map with two entries, an empty map) together with the
error `err`, nil or not. It serves to run the handlers on results other than
the empty ones of the tests. -/
def fixedDriver (err : Option GoError) : Driver Unit where
  Capabilities := fun s => ((some { RequiresMacAddress := true }, err), s)
  RequestPool := fun _ s =>
    ((some { PoolID := "p<1>", Pool := "10.0.0.0/8",
             Data := some [("b", "x\ty"), ("a", "\"q\"")] }, err), s)
  ReleasePool := fun _ s => (err, s)
  RequestAddress := fun _ s => ((some { Address := "10.0.0.2/8", Data := some [] }, err), s)
  ReleaseAddress := fun _ s => (err, s)
  GetDefaultAddressSpaces := fun s =>
    ((some { LocalDefaultAddressSpace := "local&default",
             GlobalDefaultAddressSpace := "global" }, err), s)

/-- The driver type `TestDriver` of api_test.go, `struct { Driver }`: it defines
five operations, each succeeding with the empty response and leaving the
state alone, and has `Capabilities` promoted from the embedded driver. The
tests build it with a nil embedded driver, on which a call of `Capabilities`
panics; panics are outside this embedding, so the embedded driver is an
argument, and it decides nothing but `Capabilities`. -/
def TestDriver {σ : Type} (embedded : Driver σ) : Driver σ where
  Capabilities := embedded.Capabilities
  RequestPool := fun _ s => ((some {}, none), s)
  ReleasePool := fun _ s => (none, s)
  RequestAddress := fun _ s => ((some {}, none), s)
  ReleaseAddress := fun _ s => (none, s)
  GetDefaultAddressSpaces := fun s => ((some {}, none), s)

/-- The driver type `ErrDriver` of api_test.go, `struct { Driver }`: it defines
five operations, each failing with the same error and a nil result, and has
`Capabilities` promoted from the embedded driver, which is an argument as for
`TestDriver`. -/
def ErrDriver {σ : Type} (embedded : Driver σ) : Driver σ where
  Capabilities := embedded.Capabilities
  RequestPool := fun _ s => ((none, some (errorsNew "I CAN HAZ ERRORZ")), s)
  ReleasePool := fun _ s => (some (errorsNew "I CAN HAZ ERRORZ"), s)
  RequestAddress := fun _ s => ((none, some (errorsNew "I CAN HAZ ERRORZ")), s)
  ReleaseAddress := fun _ s => (some (errorsNew "I CAN HAZ ERRORZ"), s)
  GetDefaultAddressSpaces := fun s => ((none, some (errorsNew "I CAN HAZ ERRORZ")), s)

/-! ## Routing lemmas -/

section Routing
variable {σ : Type} (dec : Decoder) (d : Driver σ) (s : σ) (body : String)

/-- NewHandler succeeds, and the table it builds is the discovery route
followed by the six routes of initMux. -/
theorem NewHandler_eq :
    NewHandler dec d = .ok { driver := d, sdkHandler := { mux := { m :=
      [ (activatePath, sdk.activate manifest),
        (capabilitiesPath, capabilitiesHandler d),
        (requestPoolPath, requestPoolHandler dec d),
        (releasePoolPath, releasePoolHandler dec d),
        (requestAddressPath, requestAddressHandler dec d),
        (releaseAddressPath, releaseAddressHandler dec d),
        (getDefaultAddressSpacesPath, getDefaultAddressSpacesHandler d) ] } } } := rfl

theorem serve_activate :
    serve dec d s ⟨activatePath, body⟩
      = .ok (sdk.activate manifest ⟨activatePath, body⟩ { driver := s }) := rfl

theorem serve_capabilities :
    serve dec d s ⟨capabilitiesPath, body⟩
      = .ok (capabilitiesHandler d ⟨capabilitiesPath, body⟩ { driver := s }) := rfl

theorem serve_requestPool :
    serve dec d s ⟨requestPoolPath, body⟩
      = .ok (requestPoolHandler dec d ⟨requestPoolPath, body⟩ { driver := s }) := rfl

theorem serve_releasePool :
    serve dec d s ⟨releasePoolPath, body⟩
      = .ok (releasePoolHandler dec d ⟨releasePoolPath, body⟩ { driver := s }) := rfl

theorem serve_requestAddress :
    serve dec d s ⟨requestAddressPath, body⟩
      = .ok (requestAddressHandler dec d ⟨requestAddressPath, body⟩ { driver := s }) := rfl

theorem serve_releaseAddress :
    serve dec d s ⟨releaseAddressPath, body⟩
      = .ok (releaseAddressHandler dec d ⟨releaseAddressPath, body⟩ { driver := s }) := rfl

theorem serve_getDefaultAddressSpaces :
    serve dec d s ⟨getDefaultAddressSpacesPath, body⟩
      = .ok (getDefaultAddressSpacesHandler d ⟨getDefaultAddressSpacesPath, body⟩
          { driver := s }) := rfl

end Routing

/-! ## What each function writes, by case -/

section Cases
variable {σ : Type} (dec : Decoder) (d : Driver σ) (r : Request) (x : Exchange σ)

theorem releasePoolHandler_ok (req : ReleaseIpamPoolRequest)
    (hdec : dec.releasePoolRequest r.body = .ok req) :
    releasePoolHandler dec d r x =
      { w := match (d.ReleasePool req x.driver).1 with
          | some e => writeError x.w e
          | none => sdk.EncodeResponse x.w (.stringMap makeMap) "",
        driver := (d.ReleasePool req x.driver).2,
        calls := x.calls ++ [DriverCall.ReleasePool req] } := by
  simp only [releasePoolHandler, sdk.DecodeRequest, hdec]
  cases (d.ReleasePool req x.driver).1 <;> rfl

theorem releaseAddressHandler_ok (req : ReleaseIpamAddressRequest)
    (hdec : dec.releaseAddressRequest r.body = .ok req) :
    releaseAddressHandler dec d r x =
      { w := match (d.ReleaseAddress req x.driver).1 with
          | some e => writeError x.w e
          | none => sdk.EncodeResponse x.w (.stringMap makeMap) "",
        driver := (d.ReleaseAddress req x.driver).2,
        calls := x.calls ++ [DriverCall.ReleaseAddress req] } := by
  simp only [releaseAddressHandler, sdk.DecodeRequest, hdec]
  cases (d.ReleaseAddress req x.driver).1 <;> rfl

theorem requestPoolHandler_ok (req : CreateIpamPoolRequest)
    (hdec : dec.poolRequest r.body = .ok req) :
    requestPoolHandler dec d r x =
      { w := sdk.EncodeResponse
          (match (d.RequestPool req x.driver).1.2 with
            | some e => writeError x.w e
            | none => x.w)
          (.pool (d.RequestPool req x.driver).1.1) "",
        driver := (d.RequestPool req x.driver).2,
        calls := x.calls ++ [DriverCall.RequestPool req] } := by
  simp only [requestPoolHandler, sdk.DecodeRequest, hdec]
  cases (d.RequestPool req x.driver).1.2 <;> rfl

theorem requestAddressHandler_ok (req : CreateIpamAddressRequest)
    (hdec : dec.addressRequest r.body = .ok req) :
    requestAddressHandler dec d r x =
      { w := sdk.EncodeResponse
          (match (d.RequestAddress req x.driver).1.2 with
            | some e => writeError x.w e
            | none => x.w)
          (.address (d.RequestAddress req x.driver).1.1) "",
        driver := (d.RequestAddress req x.driver).2,
        calls := x.calls ++ [DriverCall.RequestAddress req] } := by
  simp only [requestAddressHandler, sdk.DecodeRequest, hdec]
  cases (d.RequestAddress req x.driver).1.2 <;> rfl

theorem capabilitiesHandler_eq :
    capabilitiesHandler d r x =
      { w := sdk.EncodeResponse
          (match (d.Capabilities x.driver).1.2 with
            | some e => writeError x.w e
            | none => x.w)
          (.capabilities (d.Capabilities x.driver).1.1) "",
        driver := (d.Capabilities x.driver).2,
        calls := x.calls ++ [DriverCall.Capabilities] } := by
  simp only [capabilitiesHandler]
  cases (d.Capabilities x.driver).1.2 <;> rfl

theorem getDefaultAddressSpacesHandler_eq :
    getDefaultAddressSpacesHandler d r x =
      { w := sdk.EncodeResponse
          (match (d.GetDefaultAddressSpaces x.driver).1.2 with
            | some e => writeError x.w e
            | none => x.w)
          (.addressSpaces (d.GetDefaultAddressSpaces x.driver).1.1) "",
        driver := (d.GetDefaultAddressSpaces x.driver).2,
        calls := x.calls ++ [DriverCall.GetDefaultAddressSpaces] } := by
  simp only [getDefaultAddressSpacesHandler]
  cases (d.GetDefaultAddressSpaces x.driver).1.2 <;> rfl

theorem requestPoolHandler_fail (e : String) (hdec : dec.poolRequest r.body = .error e) :
    requestPoolHandler dec d r x = x := by
  simp only [requestPoolHandler, sdk.DecodeRequest, hdec]

theorem releasePoolHandler_fail (e : String) (hdec : dec.releasePoolRequest r.body = .error e) :
    releasePoolHandler dec d r x = x := by
  simp only [releasePoolHandler, sdk.DecodeRequest, hdec]

theorem requestAddressHandler_fail (e : String) (hdec : dec.addressRequest r.body = .error e) :
    requestAddressHandler dec d r x = x := by
  simp only [requestAddressHandler, sdk.DecodeRequest, hdec]

theorem releaseAddressHandler_fail (e : String)
    (hdec : dec.releaseAddressRequest r.body = .error e) :
    releaseAddressHandler dec d r x = x := by
  simp only [releaseAddressHandler, sdk.DecodeRequest, hdec]

/-- The writes of a fresh writer after one `sdk.EncodeResponse`. -/
theorem EncodeResponse_fresh (res : Payload) (err : String) :
    sdk.EncodeResponse {} res err = { status := some StatusOK, writes := [Marshal res ++ "\n"] } :=
  rfl

/-- The writes of a fresh writer after the error write and a second `sdk.EncodeResponse`. -/
theorem EncodeResponse_after_error (e : GoError) (res : Payload) (err : String) :
    sdk.EncodeResponse (writeError {} e) res err =
      { status := some StatusOK,
        writes := [encodeErrorResponse (NewErrorResponse e.Error) ++ "\n", Marshal res ++ "\n"] } :=
  rfl

theorem writeError_fresh (e : GoError) :
    writeError {} e =
      { status := some StatusOK,
        writes := [encodeErrorResponse (NewErrorResponse e.Error) ++ "\n"] } :=
  rfl

end Cases

/-- The line of an error envelope is not the line of the empty map: its
second character is a quote, not a closing brace. -/
theorem envelope_ne_emptyMap (msg : String) :
    encodeErrorResponse (NewErrorResponse msg) ++ "\n" ≠ Marshal (.stringMap makeMap) ++ "\n" := by
  intro h
  have h2 : (encodeErrorResponse (NewErrorResponse msg) ++ "\n").data.get? 1
      = (Marshal (.stringMap makeMap) ++ "\n").data.get? 1 := by rw [h]
  have hl : (encodeErrorResponse (NewErrorResponse msg) ++ "\n").data.get? 1
      = some (Char.ofNat 34) := rfl
  have hr : (Marshal (.stringMap makeMap) ++ "\n").data.get? 1 = some (Char.ofNat 125) := rfl
  rw [hl, hr] at h2
  exact absurd h2 (by decide)

/-! ## The JSON text of strings and maps -/

theorem toNat_inj (a b : Char) : a.toNat = b.toNat ↔ a = b := by
  constructor
  · intro h
    apply Char.ext
    apply UInt32.ext
    exact h
  · rintro rfl
    rfl

/-- The order the encoder sorts keys by is the order of texts. -/
theorem charsLess_iff : ∀ (s t : List Char), charsLess s t = true ↔ s < t
  | [], [] => by simp [charsLess]
  | [], b :: t => by simpa [charsLess] using List.nil_lt_cons b t
  | _ :: _, [] => by simp [charsLess]
  | a :: s, b :: t => by
    have ih := charsLess_iff s t
    simp only [charsLess, Bool.or_eq_true, Bool.and_eq_true, decide_eq_true_eq, ih]
    constructor
    · rintro (h | ⟨h1, h2⟩)
      · exact List.Lex.rel h
      · have hab := (toNat_inj a b).1 h1
        subst hab
        exact List.Lex.cons h2
    · intro h
      cases h with
      | rel h => exact Or.inl h
      | cons h => exact Or.inr ⟨rfl, h⟩

theorem charsLess_toList (a b : String) : charsLess a.toList b.toList = true ↔ a < b := by
  rw [charsLess_iff, String.lt_iff_toList_lt]

theorem insertEntry_perm (e : String × String) (l : List (String × String)) :
    (insertEntry e l).Perm (e :: l) := by
  induction l with
  | nil => exact List.Perm.refl _
  | cons f l ih =>
    unfold insertEntry
    split
    · exact List.Perm.refl _
    · exact (List.Perm.cons f ih).trans (List.Perm.swap e f l)

theorem sortEntries_perm (l : List (String × String)) : (sortEntries l).Perm l := by
  induction l with
  | nil => exact List.Perm.refl _
  | cons e l ih => exact (insertEntry_perm e _).trans (List.Perm.cons e ih)

theorem insertEntry_sorted (e : String × String) (l : List (String × String))
    (h : l.Pairwise (fun a b => a.1 ≤ b.1)) :
    (insertEntry e l).Pairwise (fun a b => a.1 ≤ b.1) := by
  induction l with
  | nil => simp [insertEntry]
  | cons f l ih =>
    have hf := List.pairwise_cons.1 h
    unfold insertEntry
    split
    · rename_i hlt
      have hef : e.1 < f.1 := (charsLess_toList _ _).1 hlt
      refine List.pairwise_cons.2 ⟨?_, h⟩
      intro b hb
      rcases List.mem_cons.1 hb with rfl | hb
      · exact le_of_lt hef
      · exact le_trans (le_of_lt hef) (hf.1 b hb)
    · rename_i hlt
      have hfe : f.1 ≤ e.1 := not_lt.1 (fun h => hlt ((charsLess_toList _ _).2 h))
      refine List.pairwise_cons.2 ⟨?_, ih hf.2⟩
      intro b hb
      rcases List.mem_cons.1 ((insertEntry_perm e l).subset hb) with rfl | hb
      · exact hfe
      · exact hf.1 b hb

theorem sortEntries_sorted (l : List (String × String)) :
    (sortEntries l).Pairwise (fun a b => a.1 ≤ b.1) := by
  induction l with
  | nil => exact List.Pairwise.nil
  | cons e l ih => exact insertEntry_sorted e _ ih

/-- A character from U+0020 on that is not one of the seven escaped ones is
written as it is. -/
theorem escapeChar_plain (c : Char) (h : 32 ≤ c.toNat)
    (h2 : c.toNat ∉ [34, 38, 60, 62, 92, 8232, 8233]) : escapeChar c = [c] := by
  simp only [List.mem_cons, List.mem_singleton, List.not_mem_nil, or_false, not_or] at h2
  have hs : jsonSafe c = true := by
    simp only [jsonSafe, Bool.not_eq_true', Bool.or_eq_false_iff, decide_eq_false_iff_not]
    omega
  simp [escapeChar, hs]

/-- The seven escaped characters from U+0020 on: the quote, the ampersand, the
two angle brackets, the backslash, and the two Unicode line separators. -/
theorem escapeChar_special :
    [34, 38, 60, 62, 92, 8232, 8233].map (fun n => String.mk (escapeChar (Char.ofNat n)))
      = ["\\\"", "\\u0026", "\\u003c", "\\u003e", "\\\\", "\\u2028", "\\u2029"] := by
  decide

/-- The control characters below U+0020: short forms for tab, newline and
carriage return, the six-character form for the others. -/
theorem escapeChar_control :
    (List.range 32).map (fun n => String.mk (escapeChar (Char.ofNat n)))
      = ["\\u0000", "\\u0001", "\\u0002", "\\u0003", "\\u0004", "\\u0005", "\\u0006", "\\u0007",
         "\\u0008", "\\t", "\\n", "\\u000b", "\\u000c", "\\r", "\\u000e", "\\u000f",
         "\\u0010", "\\u0011", "\\u0012", "\\u0013", "\\u0014", "\\u0015", "\\u0016", "\\u0017",
         "\\u0018", "\\u0019", "\\u001a", "\\u001b", "\\u001c", "\\u001d", "\\u001e", "\\u001f"] := by
  decide

/-! ## The claims -/

/-- C2: on the ReleasePool and ReleaseAddress routes, for every request that
decodes and every driver error, the handler performs exactly one response
write, the error envelope built from the message of the error, and the
empty-map success body is not written. -/
theorem release_error_writes_only_envelope {σ : Type} (dec : Decoder) (d : Driver σ) (s : σ)
    (body : String) (e : GoError) :
    (∀ req, dec.releasePoolRequest body = .ok req → (d.ReleasePool req s).1 = some e →
      ∃ x, serve dec d s ⟨releasePoolPath, body⟩ = .ok x ∧
        x.w.writes = [encodeErrorResponse (NewErrorResponse e.Error) ++ "\n"] ∧
        Marshal (.stringMap makeMap) ++ "\n" ∉ x.w.writes ∧
        (NewErrorResponse e.Error).Err = e.Error) ∧
    (∀ req, dec.releaseAddressRequest body = .ok req → (d.ReleaseAddress req s).1 = some e →
      ∃ x, serve dec d s ⟨releaseAddressPath, body⟩ = .ok x ∧
        x.w.writes = [encodeErrorResponse (NewErrorResponse e.Error) ++ "\n"] ∧
        Marshal (.stringMap makeMap) ++ "\n" ∉ x.w.writes ∧
        (NewErrorResponse e.Error).Err = e.Error) := by
  refine ⟨?_, ?_⟩
  · intro req hdec herr
    refine ⟨_, serve_releasePool dec d s body, ?_⟩
    rw [releasePoolHandler_ok dec d _ _ req hdec]
    simp [herr, writeError_fresh, NewErrorResponse]
    exact fun h => envelope_ne_emptyMap e.Error h.symm
  · intro req hdec herr
    refine ⟨_, serve_releaseAddress dec d s body, ?_⟩
    rw [releaseAddressHandler_ok dec d _ _ req hdec]
    simp [herr, writeError_fresh, NewErrorResponse]
    exact fun h => envelope_ne_emptyMap e.Error h.symm

/-- Witness of C2: the driver ErrDriver of the tests on both release routes. -/
theorem release_error_writes_only_envelope_witness :
    (jsonDecoder.releasePoolRequest "\x7b\"PoolID\":\"p1\"\x7d" = .ok { PoolID := "p1" } ∧
      ((ErrDriver (fixedDriver none)).ReleasePool { PoolID := "p1" } ()).1 = some (errorsNew "I CAN HAZ ERRORZ") ∧
      ∃ x, serve jsonDecoder (ErrDriver (fixedDriver none)) () ⟨releasePoolPath, "\x7b\"PoolID\":\"p1\"\x7d"⟩ = .ok x ∧
        x.w.writes = ["\x7b\"Err\":\"I CAN HAZ ERRORZ\"\x7d\n"] ∧
        "\x7b\x7d\n" ∉ x.w.writes ∧
        (NewErrorResponse "I CAN HAZ ERRORZ").Err = "I CAN HAZ ERRORZ") ∧
    (jsonDecoder.releaseAddressRequest "\x7b\"PoolID\":\"p1\",\"Address\":\"10.0.0.2\"\x7d"
        = .ok { PoolID := "p1", Address := "10.0.0.2" } ∧
      ((ErrDriver (fixedDriver none)).ReleaseAddress { PoolID := "p1", Address := "10.0.0.2" } ()).1
        = some (errorsNew "I CAN HAZ ERRORZ") ∧
      ∃ x, serve jsonDecoder (ErrDriver (fixedDriver none)) ()
          ⟨releaseAddressPath, "\x7b\"PoolID\":\"p1\",\"Address\":\"10.0.0.2\"\x7d"⟩ = .ok x ∧
        x.w.writes = ["\x7b\"Err\":\"I CAN HAZ ERRORZ\"\x7d\n"] ∧
        "\x7b\x7d\n" ∉ x.w.writes ∧
        (NewErrorResponse "I CAN HAZ ERRORZ").Err = "I CAN HAZ ERRORZ") :=
  ⟨⟨rfl, rfl, (release_error_writes_only_envelope jsonDecoder (ErrDriver (fixedDriver none)) ()
      "\x7b\"PoolID\":\"p1\"\x7d" (errorsNew "I CAN HAZ ERRORZ")).1 _ rfl rfl⟩,
   ⟨rfl, rfl, (release_error_writes_only_envelope jsonDecoder (ErrDriver (fixedDriver none)) ()
      "\x7b\"PoolID\":\"p1\",\"Address\":\"10.0.0.2\"\x7d" (errorsNew "I CAN HAZ ERRORZ")).2 _
      rfl rfl⟩⟩

/-- C3: on the GetCapabilities, RequestPool, RequestAddress and
GetDefaultAddressSpaces routes, when the driver returns a result `res` with a
non-nil error, the handler performs two response writes in this order: the
error envelope of the message of the error, then the encoding of `res`, which
is `null` when `res` is nil and the JSON object of the record otherwise. It
does not stop after the error write. -/
theorem request_error_writes_envelope_then_result {σ : Type} (dec : Decoder) (d : Driver σ)
    (s : σ) (body : String) (e : GoError) :
    (∀ res, (d.Capabilities s).1 = (res, some e) →
      ∃ x, serve dec d s ⟨capabilitiesPath, body⟩ = .ok x ∧
        x.w.writes = ["\x7b\"Err\":" ++ encodeString e.Error ++ "\x7d" ++ "\n",
          (match res with
            | none => "null"
            | some v => "\x7b\"RequiresMacAddress\":"
                ++ (if v.RequiresMacAddress then "true" else "false") ++ "\x7d") ++ "\n"]) ∧
    (∀ req res, dec.poolRequest body = .ok req → (d.RequestPool req s).1 = (res, some e) →
      ∃ x, serve dec d s ⟨requestPoolPath, body⟩ = .ok x ∧
        x.w.writes = ["\x7b\"Err\":" ++ encodeString e.Error ++ "\x7d" ++ "\n",
          (match res with
            | none => "null"
            | some v => "\x7b\"PoolID\":" ++ encodeString v.PoolID ++ ",\"Pool\":"
                ++ encodeString v.Pool ++ ",\"Data\":" ++ encodeMap v.Data ++ "\x7d") ++ "\n"]) ∧
    (∀ req res, dec.addressRequest body = .ok req → (d.RequestAddress req s).1 = (res, some e) →
      ∃ x, serve dec d s ⟨requestAddressPath, body⟩ = .ok x ∧
        x.w.writes = ["\x7b\"Err\":" ++ encodeString e.Error ++ "\x7d" ++ "\n",
          (match res with
            | none => "null"
            | some v => "\x7b\"Address\":" ++ encodeString v.Address ++ ",\"Data\":"
                ++ encodeMap v.Data ++ "\x7d") ++ "\n"]) ∧
    (∀ res, (d.GetDefaultAddressSpaces s).1 = (res, some e) →
      ∃ x, serve dec d s ⟨getDefaultAddressSpacesPath, body⟩ = .ok x ∧
        x.w.writes = ["\x7b\"Err\":" ++ encodeString e.Error ++ "\x7d" ++ "\n",
          (match res with
            | none => "null"
            | some v => "\x7b\"LocalDefaultAddressSpace\":"
                ++ encodeString v.LocalDefaultAddressSpace ++ ",\"GlobalDefaultAddressSpace\":"
                ++ encodeString v.GlobalDefaultAddressSpace ++ "\x7d") ++ "\n"]) := by
  refine ⟨?_, ?_, ?_, ?_⟩
  · intro res h
    refine ⟨_, serve_capabilities dec d s body, ?_⟩
    rw [capabilitiesHandler_eq]
    dsimp only
    rw [h, EncodeResponse_after_error]
    cases res <;> rfl
  · intro req res hdec h
    refine ⟨_, serve_requestPool dec d s body, ?_⟩
    rw [requestPoolHandler_ok dec d _ _ req hdec]
    dsimp only
    rw [h, EncodeResponse_after_error]
    cases res <;> rfl
  · intro req res hdec h
    refine ⟨_, serve_requestAddress dec d s body, ?_⟩
    rw [requestAddressHandler_ok dec d _ _ req hdec]
    dsimp only
    rw [h, EncodeResponse_after_error]
    cases res <;> rfl
  · intro res h
    refine ⟨_, serve_getDefaultAddressSpaces dec d s body, ?_⟩
    rw [getDefaultAddressSpacesHandler_eq]
    dsimp only
    rw [h, EncodeResponse_after_error]
    cases res <;> rfl

/-- Witness of C3: on the four routes, a driver returning results with content
together with an error (the second write is the JSON object of the result,
with its text escaped and its map keys sorted), and on the three routes where
the driver ErrDriver of the tests defines the operation, that driver, whose
results are nil (the second write is `null`). -/
theorem request_error_writes_envelope_then_result_witness :
    (((fixedDriver (some (errorsNew "pool \"p<1>\" busy"))).Capabilities ()).1
        = (some { RequiresMacAddress := true }, some (errorsNew "pool \"p<1>\" busy")) ∧
      ∃ x, serve jsonDecoder (fixedDriver (some (errorsNew "pool \"p<1>\" busy"))) ()
          ⟨capabilitiesPath, ""⟩ = .ok x ∧
        x.w.writes = ["\x7b\"Err\":\"pool \\\"p\\u003c1\\u003e\\\" busy\"\x7d\n",
          "\x7b\"RequiresMacAddress\":true\x7d\n"]) ∧
    (jsonDecoder.poolRequest "\x7b\"Pool\":\"10.0.0.0/8\"\x7d" = .ok { Pool := "10.0.0.0/8" } ∧
      ((fixedDriver (some (errorsNew "pool \"p<1>\" busy"))).RequestPool
          { Pool := "10.0.0.0/8" } ()).1
        = (some { PoolID := "p<1>", Pool := "10.0.0.0/8",
                  Data := some [("b", "x\ty"), ("a", "\"q\"")] },
           some (errorsNew "pool \"p<1>\" busy")) ∧
      ∃ x, serve jsonDecoder (fixedDriver (some (errorsNew "pool \"p<1>\" busy"))) ()
          ⟨requestPoolPath, "\x7b\"Pool\":\"10.0.0.0/8\"\x7d"⟩ = .ok x ∧
        x.w.writes = ["\x7b\"Err\":\"pool \\\"p\\u003c1\\u003e\\\" busy\"\x7d\n",
          "\x7b\"PoolID\":\"p\\u003c1\\u003e\",\"Pool\":\"10.0.0.0/8\",\"Data\":\x7b\"a\":\"\\\"q\\\"\",\"b\":\"x\\ty\"\x7d\x7d\n"]) ∧
    (jsonDecoder.addressRequest "\x7b\"PoolID\":\"p1\"\x7d" = .ok { PoolID := "p1" } ∧
      ((fixedDriver (some (errorsNew "pool \"p<1>\" busy"))).RequestAddress
          { PoolID := "p1" } ()).1
        = (some { Address := "10.0.0.2/8", Data := some [] },
           some (errorsNew "pool \"p<1>\" busy")) ∧
      ∃ x, serve jsonDecoder (fixedDriver (some (errorsNew "pool \"p<1>\" busy"))) ()
          ⟨requestAddressPath, "\x7b\"PoolID\":\"p1\"\x7d"⟩ = .ok x ∧
        x.w.writes = ["\x7b\"Err\":\"pool \\\"p\\u003c1\\u003e\\\" busy\"\x7d\n",
          "\x7b\"Address\":\"10.0.0.2/8\",\"Data\":\x7b\x7d\x7d\n"]) ∧
    (((fixedDriver (some (errorsNew "pool \"p<1>\" busy"))).GetDefaultAddressSpaces ()).1
        = (some { LocalDefaultAddressSpace := "local&default",
                  GlobalDefaultAddressSpace := "global" },
           some (errorsNew "pool \"p<1>\" busy")) ∧
      ∃ x, serve jsonDecoder (fixedDriver (some (errorsNew "pool \"p<1>\" busy"))) ()
          ⟨getDefaultAddressSpacesPath, ""⟩ = .ok x ∧
        x.w.writes = ["\x7b\"Err\":\"pool \\\"p\\u003c1\\u003e\\\" busy\"\x7d\n",
          "\x7b\"LocalDefaultAddressSpace\":\"local\\u0026default\",\"GlobalDefaultAddressSpace\":\"global\"\x7d\n"]) ∧
    (jsonDecoder.poolRequest "\x7b\"AddressSpace\":\"172.18.0.1/16\",\"Pool\":\"172.18.0.1/24\"\x7d"
        = .ok { AddressSpace := "172.18.0.1/16", Pool := "172.18.0.1/24" } ∧
      ((ErrDriver (fixedDriver none)).RequestPool
          { AddressSpace := "172.18.0.1/16", Pool := "172.18.0.1/24" } ()).1
        = (none, some (errorsNew "I CAN HAZ ERRORZ")) ∧
      ∃ x, serve jsonDecoder (ErrDriver (fixedDriver none)) () ⟨requestPoolPath,
          "\x7b\"AddressSpace\":\"172.18.0.1/16\",\"Pool\":\"172.18.0.1/24\"\x7d"⟩ = .ok x ∧
        x.w.writes = ["\x7b\"Err\":\"I CAN HAZ ERRORZ\"\x7d\n", "null\n"]) ∧
    (jsonDecoder.addressRequest "\x7b\"PoolID\":\"p1\"\x7d" = .ok { PoolID := "p1" } ∧
      ((ErrDriver (fixedDriver none)).RequestAddress { PoolID := "p1" } ()).1
        = (none, some (errorsNew "I CAN HAZ ERRORZ")) ∧
      ∃ x, serve jsonDecoder (ErrDriver (fixedDriver none)) ()
          ⟨requestAddressPath, "\x7b\"PoolID\":\"p1\"\x7d"⟩ = .ok x ∧
        x.w.writes = ["\x7b\"Err\":\"I CAN HAZ ERRORZ\"\x7d\n", "null\n"]) ∧
    (((ErrDriver (fixedDriver none)).GetDefaultAddressSpaces ()).1
        = (none, some (errorsNew "I CAN HAZ ERRORZ")) ∧
      ∃ x, serve jsonDecoder (ErrDriver (fixedDriver none)) ()
          ⟨getDefaultAddressSpacesPath, ""⟩ = .ok x ∧
        x.w.writes = ["\x7b\"Err\":\"I CAN HAZ ERRORZ\"\x7d\n", "null\n"]) :=
  ⟨⟨rfl, (request_error_writes_envelope_then_result jsonDecoder
      (fixedDriver (some (errorsNew "pool \"p<1>\" busy"))) () ""
      (errorsNew "pool \"p<1>\" busy")).1 _ rfl⟩,
   ⟨rfl, rfl, (request_error_writes_envelope_then_result jsonDecoder
      (fixedDriver (some (errorsNew "pool \"p<1>\" busy"))) () "\x7b\"Pool\":\"10.0.0.0/8\"\x7d"
      (errorsNew "pool \"p<1>\" busy")).2.1 _ _ rfl rfl⟩,
   ⟨rfl, rfl, (request_error_writes_envelope_then_result jsonDecoder
      (fixedDriver (some (errorsNew "pool \"p<1>\" busy"))) () "\x7b\"PoolID\":\"p1\"\x7d"
      (errorsNew "pool \"p<1>\" busy")).2.2.1 _ _ rfl rfl⟩,
   ⟨rfl, (request_error_writes_envelope_then_result jsonDecoder
      (fixedDriver (some (errorsNew "pool \"p<1>\" busy"))) () ""
      (errorsNew "pool \"p<1>\" busy")).2.2.2 _ rfl⟩,
   ⟨rfl, rfl, (request_error_writes_envelope_then_result jsonDecoder
      (ErrDriver (fixedDriver none)) ()
      "\x7b\"AddressSpace\":\"172.18.0.1/16\",\"Pool\":\"172.18.0.1/24\"\x7d"
      (errorsNew "I CAN HAZ ERRORZ")).2.1 _ none rfl rfl⟩,
   ⟨rfl, rfl, (request_error_writes_envelope_then_result jsonDecoder
      (ErrDriver (fixedDriver none)) () "\x7b\"PoolID\":\"p1\"\x7d"
      (errorsNew "I CAN HAZ ERRORZ")).2.2.1 _ none rfl rfl⟩,
   ⟨rfl, (request_error_writes_envelope_then_result jsonDecoder
      (ErrDriver (fixedDriver none)) () ""
      (errorsNew "I CAN HAZ ERRORZ")).2.2.2 none rfl⟩⟩

/-- C4: on the RequestPool route, for every request that decodes and every
driver success value `v` (error nil), the handler performs exactly one
response write: the compact JSON object of `v` with the keys PoolID, Pool and
Data in that order, followed by a newline. The two texts are JSON strings (in
quotes, each character written as it is or escaped by the table below); a nil
Data map is written as `null`, an empty one as an empty object, and any other
one as the object of its entries, sorted by key. -/
theorem requestPool_success_writes_object {σ : Type} (dec : Decoder) (d : Driver σ) (s : σ)
    (body : String) (req : CreateIpamPoolRequest) (v : CreateIpamPoolResponse)
    (hdec : dec.poolRequest body = .ok req)
    (hres : (d.RequestPool req s).1 = (some v, none)) :
    (∃ x, serve dec d s ⟨requestPoolPath, body⟩ = .ok x ∧
      x.w.writes = ["\x7b\"PoolID\":" ++ encodeString v.PoolID ++ ",\"Pool\":"
        ++ encodeString v.Pool ++ ",\"Data\":" ++ encodeMap v.Data ++ "\x7d" ++ "\n"]) ∧
    encodeMap none = "null" ∧ encodeMap (some []) = "\x7b\x7d" ∧
    (∀ l, encodeMap (some l) = "\x7b" ++ ",".intercalate
      ((sortEntries l).map (fun kv => encodeString kv.1 ++ ":" ++ encodeString kv.2)) ++ "\x7d") ∧
    (∀ l, (sortEntries l).Perm l ∧ (sortEntries l).Pairwise (fun a b => a.1 ≤ b.1)) ∧
    (∀ t, encodeString t = "\"" ++ String.mk (t.toList.flatMap escapeChar) ++ "\"") ∧
    (∀ c : Char, 32 ≤ c.toNat → c.toNat ∉ [34, 38, 60, 62, 92, 8232, 8233] →
      escapeChar c = [c]) ∧
    [34, 38, 60, 62, 92, 8232, 8233].map (fun n => String.mk (escapeChar (Char.ofNat n)))
      = ["\\\"", "\\u0026", "\\u003c", "\\u003e", "\\\\", "\\u2028", "\\u2029"] ∧
    (List.range 32).map (fun n => String.mk (escapeChar (Char.ofNat n)))
      = ["\\u0000", "\\u0001", "\\u0002", "\\u0003", "\\u0004", "\\u0005", "\\u0006", "\\u0007",
         "\\u0008", "\\t", "\\n", "\\u000b", "\\u000c", "\\r", "\\u000e", "\\u000f",
         "\\u0010", "\\u0011", "\\u0012", "\\u0013", "\\u0014", "\\u0015", "\\u0016", "\\u0017",
         "\\u0018", "\\u0019", "\\u001a", "\\u001b", "\\u001c", "\\u001d", "\\u001e", "\\u001f"] := by
  refine ⟨⟨_, serve_requestPool dec d s body, ?_⟩, rfl, rfl, fun _ => rfl,
    fun l => ⟨sortEntries_perm l, sortEntries_sorted l⟩, fun _ => rfl, escapeChar_plain,
    escapeChar_special, escapeChar_control⟩
  rw [requestPoolHandler_ok dec d _ _ req hdec]
  dsimp only
  rw [hres, EncodeResponse_fresh]
  rfl

/-- Witness of C4: the request of TestCreateIpamPoolSuccess against the driver
TestDriver, which returns the empty CreateIpamPoolResponse (the single write
is the body the test reads), and against a driver returning a response with
content: text that needs escaping and a map with two entries, written with
its keys sorted. -/
theorem requestPool_success_writes_object_witness :
    (jsonDecoder.poolRequest "\x7b\"AddressSpace\":\"172.18.0.1/16\",\"Pool\":\"172.18.0.1/24\"\x7d"
        = .ok { AddressSpace := "172.18.0.1/16", Pool := "172.18.0.1/24" } ∧
      ((TestDriver (fixedDriver none)).RequestPool
          { AddressSpace := "172.18.0.1/16", Pool := "172.18.0.1/24" } ()).1 = (some {}, none) ∧
      ∃ x, serve jsonDecoder (TestDriver (fixedDriver none)) () ⟨requestPoolPath,
          "\x7b\"AddressSpace\":\"172.18.0.1/16\",\"Pool\":\"172.18.0.1/24\"\x7d"⟩ = .ok x ∧
        x.w.writes = ["\x7b\"PoolID\":\"\",\"Pool\":\"\",\"Data\":null\x7d\n"]) ∧
    (jsonDecoder.poolRequest "\x7b\"AddressSpace\":\"172.18.0.1/16\",\"Pool\":\"172.18.0.1/24\"\x7d"
        = .ok { AddressSpace := "172.18.0.1/16", Pool := "172.18.0.1/24" } ∧
      ((fixedDriver none).RequestPool
          { AddressSpace := "172.18.0.1/16", Pool := "172.18.0.1/24" } ()).1
        = (some { PoolID := "p<1>", Pool := "10.0.0.0/8",
                  Data := some [("b", "x\ty"), ("a", "\"q\"")] }, none) ∧
      ∃ x, serve jsonDecoder (fixedDriver none) () ⟨requestPoolPath,
          "\x7b\"AddressSpace\":\"172.18.0.1/16\",\"Pool\":\"172.18.0.1/24\"\x7d"⟩ = .ok x ∧
        x.w.writes = ["\x7b\"PoolID\":\"p\\u003c1\\u003e\",\"Pool\":\"10.0.0.0/8\",\"Data\":\x7b\"a\":\"\\\"q\\\"\",\"b\":\"x\\ty\"\x7d\x7d\n"]) :=
  ⟨⟨rfl, rfl, (requestPool_success_writes_object jsonDecoder (TestDriver (fixedDriver none)) ()
      "\x7b\"AddressSpace\":\"172.18.0.1/16\",\"Pool\":\"172.18.0.1/24\"\x7d"
      { AddressSpace := "172.18.0.1/16", Pool := "172.18.0.1/24" } {} rfl rfl).1⟩,
   ⟨rfl, rfl, (requestPool_success_writes_object jsonDecoder (fixedDriver none) ()
      "\x7b\"AddressSpace\":\"172.18.0.1/16\",\"Pool\":\"172.18.0.1/24\"\x7d"
      { AddressSpace := "172.18.0.1/16", Pool := "172.18.0.1/24" }
      { PoolID := "p<1>", Pool := "10.0.0.0/8", Data := some [("b", "x\ty"), ("a", "\"q\"")] }
      rfl rfl).1⟩⟩

/-- C5: on the ReleasePool and ReleaseAddress routes, for every request that
decodes and for which the driver returns no error, the handler writes exactly
one body, the empty JSON object (the encoding of an empty string-to-string
map) followed by a newline, whatever the request holds. -/
theorem release_success_writes_empty_object {σ : Type} (dec : Decoder) (d : Driver σ) (s : σ)
    (body : String) :
    (∀ req, dec.releasePoolRequest body = .ok req → (d.ReleasePool req s).1 = none →
      ∃ x, serve dec d s ⟨releasePoolPath, body⟩ = .ok x ∧ x.w.writes = ["\x7b\x7d\n"]) ∧
    (∀ req, dec.releaseAddressRequest body = .ok req → (d.ReleaseAddress req s).1 = none →
      ∃ x, serve dec d s ⟨releaseAddressPath, body⟩ = .ok x ∧ x.w.writes = ["\x7b\x7d\n"]) ∧
    Marshal (.stringMap makeMap) = "\x7b\x7d" := by
  refine ⟨?_, ?_, rfl⟩
  · intro req hdec h
    refine ⟨_, serve_releasePool dec d s body, ?_⟩
    rw [releasePoolHandler_ok dec d _ _ req hdec]
    simp only [h, EncodeResponse_fresh]
    rfl
  · intro req hdec h
    refine ⟨_, serve_releaseAddress dec d s body, ?_⟩
    rw [releaseAddressHandler_ok dec d _ _ req hdec]
    simp only [h, EncodeResponse_fresh]
    rfl

/-- Witness of C5: the driver TestDriver of the tests on both release routes. -/
theorem release_success_writes_empty_object_witness :
    (jsonDecoder.releasePoolRequest "\x7b\"PoolID\":\"p1\"\x7d" = .ok { PoolID := "p1" } ∧
      ((TestDriver (fixedDriver none)).ReleasePool { PoolID := "p1" } ()).1 = none ∧
      ∃ x, serve jsonDecoder (TestDriver (fixedDriver none)) () ⟨releasePoolPath, "\x7b\"PoolID\":\"p1\"\x7d"⟩ = .ok x ∧
        x.w.writes = ["\x7b\x7d\n"]) ∧
    (jsonDecoder.releaseAddressRequest "\x7b\"PoolID\":\"p1\",\"Address\":\"10.0.0.2\"\x7d"
        = .ok { PoolID := "p1", Address := "10.0.0.2" } ∧
      ((TestDriver (fixedDriver none)).ReleaseAddress { PoolID := "p1", Address := "10.0.0.2" } ()).1 = none ∧
      ∃ x, serve jsonDecoder (TestDriver (fixedDriver none)) ()
          ⟨releaseAddressPath, "\x7b\"PoolID\":\"p1\",\"Address\":\"10.0.0.2\"\x7d"⟩ = .ok x ∧
        x.w.writes = ["\x7b\x7d\n"]) :=
  ⟨⟨rfl, rfl, (release_success_writes_empty_object jsonDecoder (TestDriver (fixedDriver none)) ()
      "\x7b\"PoolID\":\"p1\"\x7d").1 _ rfl rfl⟩,
   ⟨rfl, rfl, (release_success_writes_empty_object jsonDecoder (TestDriver (fixedDriver none)) ()
      "\x7b\"PoolID\":\"p1\",\"Address\":\"10.0.0.2\"\x7d").2.1 _ rfl rfl⟩⟩

/-- C6: on the four routes that take a body, for every request whose body
fails to decode into the expected record, the exchange ends with nothing
written to the response (no header, no body) and without the driver being
invoked: no operation is logged and the driver state is unchanged. -/
theorem decode_failure_writes_nothing {σ : Type} (dec : Decoder) (d : Driver σ) (s : σ)
    (body : String) :
    (∀ e, dec.poolRequest body = .error e →
      ∃ x, serve dec d s ⟨requestPoolPath, body⟩ = .ok x ∧
        x.w.writes = [] ∧ x.w.status = none ∧ x.w.body = "" ∧ x.calls = [] ∧ x.driver = s) ∧
    (∀ e, dec.releasePoolRequest body = .error e →
      ∃ x, serve dec d s ⟨releasePoolPath, body⟩ = .ok x ∧
        x.w.writes = [] ∧ x.w.status = none ∧ x.w.body = "" ∧ x.calls = [] ∧ x.driver = s) ∧
    (∀ e, dec.addressRequest body = .error e →
      ∃ x, serve dec d s ⟨requestAddressPath, body⟩ = .ok x ∧
        x.w.writes = [] ∧ x.w.status = none ∧ x.w.body = "" ∧ x.calls = [] ∧ x.driver = s) ∧
    (∀ e, dec.releaseAddressRequest body = .error e →
      ∃ x, serve dec d s ⟨releaseAddressPath, body⟩ = .ok x ∧
        x.w.writes = [] ∧ x.w.status = none ∧ x.w.body = "" ∧ x.calls = [] ∧ x.driver = s) := by
  refine ⟨?_, ?_, ?_, ?_⟩
  · intro e hdec
    refine ⟨_, serve_requestPool dec d s body, ?_⟩
    rw [requestPoolHandler_fail dec d _ _ e hdec]
    exact ⟨rfl, rfl, rfl, rfl, rfl⟩
  · intro e hdec
    refine ⟨_, serve_releasePool dec d s body, ?_⟩
    rw [releasePoolHandler_fail dec d _ _ e hdec]
    exact ⟨rfl, rfl, rfl, rfl, rfl⟩
  · intro e hdec
    refine ⟨_, serve_requestAddress dec d s body, ?_⟩
    rw [requestAddressHandler_fail dec d _ _ e hdec]
    exact ⟨rfl, rfl, rfl, rfl, rfl⟩
  · intro e hdec
    refine ⟨_, serve_releaseAddress dec d s body, ?_⟩
    rw [releaseAddressHandler_fail dec d _ _ e hdec]
    exact ⟨rfl, rfl, rfl, rfl, rfl⟩

/-- Witness of C6: a body cut off in the middle of the object, on the four
routes, against the driver TestDriver. -/
theorem decode_failure_writes_nothing_witness :
    (jsonDecoder.poolRequest "\x7b\"Pool\":" = .error "json: no well-formed value in the body" ∧
      ∃ x, serve jsonDecoder (TestDriver (fixedDriver none)) () ⟨requestPoolPath, "\x7b\"Pool\":"⟩ = .ok x ∧
        x.w.writes = [] ∧ x.w.status = none ∧ x.w.body = "" ∧ x.calls = [] ∧ x.driver = ()) ∧
    (jsonDecoder.releasePoolRequest "\x7b\"Pool\":"
        = .error "json: no well-formed value in the body" ∧
      ∃ x, serve jsonDecoder (TestDriver (fixedDriver none)) () ⟨releasePoolPath, "\x7b\"Pool\":"⟩ = .ok x ∧
        x.w.writes = [] ∧ x.w.status = none ∧ x.w.body = "" ∧ x.calls = [] ∧ x.driver = ()) ∧
    (jsonDecoder.addressRequest "\x7b\"Pool\":"
        = .error "json: no well-formed value in the body" ∧
      ∃ x, serve jsonDecoder (TestDriver (fixedDriver none)) () ⟨requestAddressPath, "\x7b\"Pool\":"⟩ = .ok x ∧
        x.w.writes = [] ∧ x.w.status = none ∧ x.w.body = "" ∧ x.calls = [] ∧ x.driver = ()) ∧
    (jsonDecoder.releaseAddressRequest "\x7b\"Pool\":"
        = .error "json: no well-formed value in the body" ∧
      ∃ x, serve jsonDecoder (TestDriver (fixedDriver none)) () ⟨releaseAddressPath, "\x7b\"Pool\":"⟩ = .ok x ∧
        x.w.writes = [] ∧ x.w.status = none ∧ x.w.body = "" ∧ x.calls = [] ∧ x.driver = ()) :=
  ⟨⟨rfl, (decode_failure_writes_nothing jsonDecoder (TestDriver (fixedDriver none)) () "\x7b\"Pool\":").1 _ rfl⟩,
   ⟨rfl, (decode_failure_writes_nothing jsonDecoder (TestDriver (fixedDriver none)) () "\x7b\"Pool\":").2.1 _ rfl⟩,
   ⟨rfl, (decode_failure_writes_nothing jsonDecoder (TestDriver (fixedDriver none)) () "\x7b\"Pool\":").2.2.1 _ rfl⟩,
   ⟨rfl, (decode_failure_writes_nothing jsonDecoder (TestDriver (fixedDriver none)) () "\x7b\"Pool\":").2.2.2 _ rfl⟩⟩

/-- C7: for every driver, the handler built by NewHandler serves the discovery
route with one write, the fixed manifest followed by a newline; no driver
operation is called and the driver state is untouched, so the reply does not
depend on the driver. -/
theorem activate_writes_manifest {σ : Type} (dec : Decoder) (d : Driver σ) (s : σ)
    (body : String) :
    ∃ x, serve dec d s ⟨activatePath, body⟩ = .ok x ∧
      x.w.writes = ["\x7b\"Implements\": [\"IpamDriver\"]\x7d\n"] ∧
      x.w.body = manifest ++ "\n" ∧ x.calls = [] ∧ x.driver = s :=
  ⟨_, serve_activate dec d s body, rfl, rfl, rfl, rfl⟩

/-- C8: on each of the six routes, for every request that decodes, the
response has HTTP status 200 whether the driver fails or succeeds; when the
driver fails, the first write under that status is the error envelope, so the
status code does not signal the failure. -/
theorem responses_written_with_status_ok {σ : Type} (dec : Decoder) (d : Driver σ) (s : σ)
    (body : String) :
    (∃ x, serve dec d s ⟨capabilitiesPath, body⟩ = .ok x ∧ x.w.status = some 200 ∧
      ∀ e, (d.Capabilities s).1.2 = some e →
        x.w.writes.head? = some (encodeErrorResponse (NewErrorResponse e.Error) ++ "\n")) ∧
    (∀ req, dec.poolRequest body = .ok req →
      ∃ x, serve dec d s ⟨requestPoolPath, body⟩ = .ok x ∧ x.w.status = some 200 ∧
        ∀ e, (d.RequestPool req s).1.2 = some e →
          x.w.writes.head? = some (encodeErrorResponse (NewErrorResponse e.Error) ++ "\n")) ∧
    (∀ req, dec.releasePoolRequest body = .ok req →
      ∃ x, serve dec d s ⟨releasePoolPath, body⟩ = .ok x ∧ x.w.status = some 200 ∧
        ∀ e, (d.ReleasePool req s).1 = some e →
          x.w.writes.head? = some (encodeErrorResponse (NewErrorResponse e.Error) ++ "\n")) ∧
    (∀ req, dec.addressRequest body = .ok req →
      ∃ x, serve dec d s ⟨requestAddressPath, body⟩ = .ok x ∧ x.w.status = some 200 ∧
        ∀ e, (d.RequestAddress req s).1.2 = some e →
          x.w.writes.head? = some (encodeErrorResponse (NewErrorResponse e.Error) ++ "\n")) ∧
    (∀ req, dec.releaseAddressRequest body = .ok req →
      ∃ x, serve dec d s ⟨releaseAddressPath, body⟩ = .ok x ∧ x.w.status = some 200 ∧
        ∀ e, (d.ReleaseAddress req s).1 = some e →
          x.w.writes.head? = some (encodeErrorResponse (NewErrorResponse e.Error) ++ "\n")) ∧
    (∃ x, serve dec d s ⟨getDefaultAddressSpacesPath, body⟩ = .ok x ∧ x.w.status = some 200 ∧
      ∀ e, (d.GetDefaultAddressSpaces s).1.2 = some e →
        x.w.writes.head? = some (encodeErrorResponse (NewErrorResponse e.Error) ++ "\n")) := by
  refine ⟨?_, ?_, ?_, ?_, ?_, ?_⟩
  · refine ⟨_, serve_capabilities dec d s body, ?_⟩
    rw [capabilitiesHandler_eq]
    dsimp only
    cases (d.Capabilities s).1.2 <;>
      simp [EncodeResponse_fresh, EncodeResponse_after_error, StatusOK]
  · intro req hdec
    refine ⟨_, serve_requestPool dec d s body, ?_⟩
    rw [requestPoolHandler_ok dec d _ _ req hdec]
    dsimp only
    cases (d.RequestPool req s).1.2 <;>
      simp [EncodeResponse_fresh, EncodeResponse_after_error, StatusOK]
  · intro req hdec
    refine ⟨_, serve_releasePool dec d s body, ?_⟩
    rw [releasePoolHandler_ok dec d _ _ req hdec]
    dsimp only
    cases (d.ReleasePool req s).1 <;>
      simp [EncodeResponse_fresh, writeError_fresh, StatusOK]
  · intro req hdec
    refine ⟨_, serve_requestAddress dec d s body, ?_⟩
    rw [requestAddressHandler_ok dec d _ _ req hdec]
    dsimp only
    cases (d.RequestAddress req s).1.2 <;>
      simp [EncodeResponse_fresh, EncodeResponse_after_error, StatusOK]
  · intro req hdec
    refine ⟨_, serve_releaseAddress dec d s body, ?_⟩
    rw [releaseAddressHandler_ok dec d _ _ req hdec]
    dsimp only
    cases (d.ReleaseAddress req s).1 <;>
      simp [EncodeResponse_fresh, writeError_fresh, StatusOK]
  · refine ⟨_, serve_getDefaultAddressSpaces dec d s body, ?_⟩
    rw [getDefaultAddressSpacesHandler_eq]
    dsimp only
    cases (d.GetDefaultAddressSpaces s).1.2 <;>
      simp [EncodeResponse_fresh, EncodeResponse_after_error, StatusOK]

/-- Witness of C8: the driver ErrDriver of the tests on the four routes that
take a body; the envelope is the first write and the status is 200. -/
theorem responses_written_with_status_ok_witness :
    (jsonDecoder.poolRequest "\x7b\"Pool\":\"172.18.0.1/24\"\x7d" = .ok { Pool := "172.18.0.1/24" } ∧
      ∃ x, serve jsonDecoder (ErrDriver (fixedDriver none)) () ⟨requestPoolPath, "\x7b\"Pool\":\"172.18.0.1/24\"\x7d"⟩
          = .ok x ∧ x.w.status = some 200 ∧
        ∀ e, ((ErrDriver (fixedDriver none)).RequestPool { Pool := "172.18.0.1/24" } ()).1.2 = some e →
          x.w.writes.head? = some (encodeErrorResponse (NewErrorResponse e.Error) ++ "\n")) ∧
    (jsonDecoder.releasePoolRequest "\x7b\"PoolID\":\"p1\"\x7d" = .ok { PoolID := "p1" } ∧
      ∃ x, serve jsonDecoder (ErrDriver (fixedDriver none)) () ⟨releasePoolPath, "\x7b\"PoolID\":\"p1\"\x7d"⟩ = .ok x ∧
        x.w.status = some 200 ∧
        ∀ e, ((ErrDriver (fixedDriver none)).ReleasePool { PoolID := "p1" } ()).1 = some e →
          x.w.writes.head? = some (encodeErrorResponse (NewErrorResponse e.Error) ++ "\n")) ∧
    (jsonDecoder.addressRequest "\x7b\"PoolID\":\"p1\"\x7d" = .ok { PoolID := "p1" } ∧
      ∃ x, serve jsonDecoder (ErrDriver (fixedDriver none)) () ⟨requestAddressPath, "\x7b\"PoolID\":\"p1\"\x7d"⟩ = .ok x ∧
        x.w.status = some 200 ∧
        ∀ e, ((ErrDriver (fixedDriver none)).RequestAddress { PoolID := "p1" } ()).1.2 = some e →
          x.w.writes.head? = some (encodeErrorResponse (NewErrorResponse e.Error) ++ "\n")) ∧
    (jsonDecoder.releaseAddressRequest "\x7b\"PoolID\":\"p1\"\x7d" = .ok { PoolID := "p1" } ∧
      ∃ x, serve jsonDecoder (ErrDriver (fixedDriver none)) () ⟨releaseAddressPath, "\x7b\"PoolID\":\"p1\"\x7d"⟩ = .ok x ∧
        x.w.status = some 200 ∧
        ∀ e, ((ErrDriver (fixedDriver none)).ReleaseAddress { PoolID := "p1" } ()).1 = some e →
          x.w.writes.head? = some (encodeErrorResponse (NewErrorResponse e.Error) ++ "\n")) :=
  ⟨⟨rfl, (responses_written_with_status_ok jsonDecoder (ErrDriver (fixedDriver none)) ()
      "\x7b\"Pool\":\"172.18.0.1/24\"\x7d").2.1 _ rfl⟩,
   ⟨rfl, (responses_written_with_status_ok jsonDecoder (ErrDriver (fixedDriver none)) ()
      "\x7b\"PoolID\":\"p1\"\x7d").2.2.1 _ rfl⟩,
   ⟨rfl, (responses_written_with_status_ok jsonDecoder (ErrDriver (fixedDriver none)) ()
      "\x7b\"PoolID\":\"p1\"\x7d").2.2.2.1 _ rfl⟩,
   ⟨rfl, (responses_written_with_status_ok jsonDecoder (ErrDriver (fixedDriver none)) ()
      "\x7b\"PoolID\":\"p1\"\x7d").2.2.2.2.1 _ rfl⟩⟩

/-- C9: on each of the six route paths, for every request that decodes (any
request on the two routes without a body), the handler invokes exactly one
driver operation, exactly once: the one the route table names for the path,
on the decoded request record unchanged. The log of calls holds that single
call and the driver state is the one that single call leaves. -/
theorem route_invokes_its_operation_once {σ : Type} (dec : Decoder) (d : Driver σ) (s : σ)
    (body : String) :
    (∃ x, serve dec d s ⟨"/IpamDriver.GetCapabilities", body⟩ = .ok x ∧
      x.calls = [DriverCall.Capabilities] ∧ x.driver = (d.Capabilities s).2) ∧
    (∀ req, dec.poolRequest body = .ok req →
      ∃ x, serve dec d s ⟨"/IpamDriver.RequestPool", body⟩ = .ok x ∧
        x.calls = [DriverCall.RequestPool req] ∧ x.driver = (d.RequestPool req s).2) ∧
    (∀ req, dec.releasePoolRequest body = .ok req →
      ∃ x, serve dec d s ⟨"/IpamDriver.ReleasePool", body⟩ = .ok x ∧
        x.calls = [DriverCall.ReleasePool req] ∧ x.driver = (d.ReleasePool req s).2) ∧
    (∀ req, dec.addressRequest body = .ok req →
      ∃ x, serve dec d s ⟨"/IpamDriver.RequestAddress", body⟩ = .ok x ∧
        x.calls = [DriverCall.RequestAddress req] ∧ x.driver = (d.RequestAddress req s).2) ∧
    (∀ req, dec.releaseAddressRequest body = .ok req →
      ∃ x, serve dec d s ⟨"/IpamDriver.ReleaseAddress", body⟩ = .ok x ∧
        x.calls = [DriverCall.ReleaseAddress req] ∧ x.driver = (d.ReleaseAddress req s).2) ∧
    (∃ x, serve dec d s ⟨"/IpamDriver.GetDefaultAddressSpaces", body⟩ = .ok x ∧
      x.calls = [DriverCall.GetDefaultAddressSpaces] ∧
      x.driver = (d.GetDefaultAddressSpaces s).2) := by
  refine ⟨?_, ?_, ?_, ?_, ?_, ?_⟩
  · refine ⟨_, serve_capabilities dec d s body, ?_⟩
    rw [capabilitiesHandler_eq]
    exact ⟨rfl, rfl⟩
  · intro req hdec
    refine ⟨_, serve_requestPool dec d s body, ?_⟩
    rw [requestPoolHandler_ok dec d _ _ req hdec]
    exact ⟨rfl, rfl⟩
  · intro req hdec
    refine ⟨_, serve_releasePool dec d s body, ?_⟩
    rw [releasePoolHandler_ok dec d _ _ req hdec]
    exact ⟨rfl, rfl⟩
  · intro req hdec
    refine ⟨_, serve_requestAddress dec d s body, ?_⟩
    rw [requestAddressHandler_ok dec d _ _ req hdec]
    exact ⟨rfl, rfl⟩
  · intro req hdec
    refine ⟨_, serve_releaseAddress dec d s body, ?_⟩
    rw [releaseAddressHandler_ok dec d _ _ req hdec]
    exact ⟨rfl, rfl⟩
  · refine ⟨_, serve_getDefaultAddressSpaces dec d s body, ?_⟩
    rw [getDefaultAddressSpacesHandler_eq]
    exact ⟨rfl, rfl⟩

/-- Witness of C9: the request of TestCreateIpamPoolSuccess and requests for
the other three routes with a body, against the driver TestDriver. -/
theorem route_invokes_its_operation_once_witness :
    (jsonDecoder.poolRequest "\x7b\"AddressSpace\":\"172.18.0.1/16\",\"Pool\":\"172.18.0.1/24\"\x7d"
        = .ok { AddressSpace := "172.18.0.1/16", Pool := "172.18.0.1/24" } ∧
      ∃ x, serve jsonDecoder (TestDriver (fixedDriver none)) () ⟨"/IpamDriver.RequestPool",
          "\x7b\"AddressSpace\":\"172.18.0.1/16\",\"Pool\":\"172.18.0.1/24\"\x7d"⟩ = .ok x ∧
        x.calls = [DriverCall.RequestPool
          { AddressSpace := "172.18.0.1/16", Pool := "172.18.0.1/24" }] ∧
        x.driver = ()) ∧
    (jsonDecoder.releasePoolRequest "\x7b\"PoolID\":\"p1\"\x7d" = .ok { PoolID := "p1" } ∧
      ∃ x, serve jsonDecoder (TestDriver (fixedDriver none)) () ⟨"/IpamDriver.ReleasePool", "\x7b\"PoolID\":\"p1\"\x7d"⟩
          = .ok x ∧
        x.calls = [DriverCall.ReleasePool { PoolID := "p1" }] ∧ x.driver = ()) ∧
    (jsonDecoder.addressRequest "\x7b\"PoolID\":\"p1\",\"Options\":\x7b\"k\":\"v\"\x7d\x7d"
        = .ok { PoolID := "p1", Options := some [("k", "v")] } ∧
      ∃ x, serve jsonDecoder (TestDriver (fixedDriver none)) () ⟨"/IpamDriver.RequestAddress",
          "\x7b\"PoolID\":\"p1\",\"Options\":\x7b\"k\":\"v\"\x7d\x7d"⟩ = .ok x ∧
        x.calls = [DriverCall.RequestAddress { PoolID := "p1", Options := some [("k", "v")] }] ∧
        x.driver = ()) ∧
    (jsonDecoder.releaseAddressRequest "\x7b\"PoolID\":\"p1\",\"Address\":\"10.0.0.2\"\x7d"
        = .ok { PoolID := "p1", Address := "10.0.0.2" } ∧
      ∃ x, serve jsonDecoder (TestDriver (fixedDriver none)) () ⟨"/IpamDriver.ReleaseAddress",
          "\x7b\"PoolID\":\"p1\",\"Address\":\"10.0.0.2\"\x7d"⟩ = .ok x ∧
        x.calls = [DriverCall.ReleaseAddress { PoolID := "p1", Address := "10.0.0.2" }] ∧
        x.driver = ()) :=
  ⟨⟨rfl, (route_invokes_its_operation_once jsonDecoder (TestDriver (fixedDriver none)) ()
      "\x7b\"AddressSpace\":\"172.18.0.1/16\",\"Pool\":\"172.18.0.1/24\"\x7d").2.1 _ rfl⟩,
   ⟨rfl, (route_invokes_its_operation_once jsonDecoder (TestDriver (fixedDriver none)) ()
      "\x7b\"PoolID\":\"p1\"\x7d").2.2.1 _ rfl⟩,
   ⟨rfl, (route_invokes_its_operation_once jsonDecoder (TestDriver (fixedDriver none)) ()
      "\x7b\"PoolID\":\"p1\",\"Options\":\x7b\"k\":\"v\"\x7d\x7d").2.2.2.1 _ rfl⟩,
   ⟨rfl, (route_invokes_its_operation_once jsonDecoder (TestDriver (fixedDriver none)) ()
      "\x7b\"PoolID\":\"p1\",\"Address\":\"10.0.0.2\"\x7d").2.2.2.2.1 _ rfl⟩⟩

/-- C10: the six route paths registered by initMux are pairwise distinct and
distinct from the discovery path, NewHandler succeeds for every driver (no
registration is refused as a duplicate), and the table it builds holds exactly
these seven paths, each once, so a path has one handler. -/
theorem route_paths_pairwise_distinct :
    ["/Plugin.Activate", capabilitiesPath, requestPoolPath, releasePoolPath, requestAddressPath,
      releaseAddressPath, getDefaultAddressSpacesPath].Nodup ∧
    ∀ (σ : Type) (dec : Decoder) (d : Driver σ),
      ∃ h, NewHandler dec d = .ok h ∧
        h.sdkHandler.mux.patterns = ["/Plugin.Activate", capabilitiesPath, requestPoolPath,
          releasePoolPath, requestAddressPath, releaseAddressPath,
          getDefaultAddressSpacesPath] ∧
        h.sdkHandler.mux.patterns.Nodup ∧
        ∀ p f g, (p, f) ∈ h.sdkHandler.mux.m → (p, g) ∈ h.sdkHandler.mux.m → f = g := by
  have hnd : ["/Plugin.Activate", capabilitiesPath, requestPoolPath, releasePoolPath,
      requestAddressPath, releaseAddressPath, getDefaultAddressSpacesPath].Nodup := by decide
  refine ⟨hnd, fun σ dec d => ⟨_, NewHandler_eq dec d, rfl, hnd, ?_⟩⟩
  intro p f g hf hg
  have hinj := List.inj_on_of_nodup_map (f := Prod.fst)
    (l := [(activatePath, sdk.activate (σ := σ) manifest),
      (capabilitiesPath, capabilitiesHandler d),
      (requestPoolPath, requestPoolHandler dec d),
      (releasePoolPath, releasePoolHandler dec d),
      (requestAddressPath, requestAddressHandler dec d),
      (releaseAddressPath, releaseAddressHandler dec d),
      (getDefaultAddressSpacesPath, getDefaultAddressSpacesHandler d)]) hnd hf hg rfl
  exact (Prod.mk.inj hinj).2

/-- C1, evaluated where it fails: against the driver ErrDriver of the tests
(whatever driver it embeds) the GetDefaultAddressSpaces route and the
RequestPool route (on the request of TestCreateIpamPoolSuccess) write the
error envelope and then `null`, so the response body is the envelope line
followed by a second line, not the envelope. -/
theorem errDriver_body_is_envelope_then_null (embedded : Driver Unit) :
    (∃ x, serve jsonDecoder (ErrDriver embedded) () ⟨getDefaultAddressSpacesPath, ""⟩ = .ok x ∧
      x.w.writes = ["\x7b\"Err\":\"I CAN HAZ ERRORZ\"\x7d\n", "null\n"] ∧
      x.w.body = "\x7b\"Err\":\"I CAN HAZ ERRORZ\"\x7d\nnull\n" ∧
      x.w.body ≠ Marshal (.errorResponse (NewErrorResponse "I CAN HAZ ERRORZ")) ++ "\n" ∧
      x.w.body ≠ Marshal (.errorResponse (NewErrorResponse "I CAN HAZ ERRORZ"))) ∧
    (∃ x, serve jsonDecoder (ErrDriver embedded) () ⟨requestPoolPath,
        "\x7b\"AddressSpace\":\"172.18.0.1/16\",\"Pool\":\"172.18.0.1/24\"\x7d"⟩ = .ok x ∧
      x.w.writes = ["\x7b\"Err\":\"I CAN HAZ ERRORZ\"\x7d\n", "null\n"] ∧
      x.w.body = "\x7b\"Err\":\"I CAN HAZ ERRORZ\"\x7d\nnull\n" ∧
      x.w.body ≠ Marshal (.errorResponse (NewErrorResponse "I CAN HAZ ERRORZ")) ++ "\n" ∧
      x.w.body ≠ Marshal (.errorResponse (NewErrorResponse "I CAN HAZ ERRORZ"))) := by
  have hne1 : "\x7b\"Err\":\"I CAN HAZ ERRORZ\"\x7d\nnull\n"
      ≠ Marshal (.errorResponse (NewErrorResponse "I CAN HAZ ERRORZ")) ++ "\n" := by decide
  have hne2 : "\x7b\"Err\":\"I CAN HAZ ERRORZ\"\x7d\nnull\n"
      ≠ Marshal (.errorResponse (NewErrorResponse "I CAN HAZ ERRORZ")) := by decide
  exact ⟨⟨_, rfl, rfl, rfl, hne1, hne2⟩, ⟨_, rfl, rfl, rfl, hne1, hne2⟩⟩

end Ipam
